import Mathlib

/-!
Verification development for the command-interpretation layer of the
WD-Economy-Bot (`src/bot_commands.py`).

The dispatch core (command registry, argument coercion, error mapping,
usage rendering, aliasing and the recursive proxy handlers) is translated
from `src/bot_commands.py`.  The `accounting` and `commands` modules of the
repository are not part of the visible source; following the specification
they are treated as the single opaque AccountingService boundary and are
modelled as function fields of a `Server` structure (each operation either
returns a domain value together with an updated abstract state, or raises
one of the domain exception kinds).

Conventions of the shallow embedding:
* Python exceptions are modelled by the `Exn` type; a function that can
  raise returns `Except Exn _`.  An uncaught exception surfaces as
  `.error e` from `run_command`.
* Python's call stack is modelled by a fuel parameter on `run_command`;
  exhausting the fuel corresponds to `RecursionError`.
* `Fraction` values are modelled by `Rat`; Python's float rounding in
  `_rounded` is modelled by exact rational half-to-even rounding.
* Python dicts preserve insertion order; the registry is an association
  list.  `_Command` objects live in a store (`Commands.store`) and the
  dict maps names to store indices, so that object identity (which
  matters for `_Command.copy` and aliasing) is observable.
-/

/-- Modelled from the spec: the closed set of authorization levels
(`accounting.Authorization`, not under src/). -/
inductive Authorization where
  | citizen
  | admin
  | developer
deriving DecidableEq

/-- Modelled from the spec: the `name` attribute of the Authorization enum. -/
def Authorization.name : Authorization → String
  | .citizen => "CITIZEN"
  | .admin => "ADMIN"
  | .developer => "DEVELOPER"

/-- Modelled from the spec: the list of all members of the Authorization enum. -/
def Authorization.all : List Authorization := [.citizen, .admin, .developer]

/-- Runtime values flowing through the dispatcher: raw token strings,
coerced integers, `Fraction`s, account identifiers, authorization levels
and Python's `None`. -/
inductive Value where
  | str (s : String)
  | int (n : Int)
  | frac (q : Rat)
  | accountId (a : String)
  | auth (a : Authorization)
  | noneV
deriving DecidableEq

/-- Python exception kinds that the dispatch layer can observe.  The
`commands.*CommandException` classes are not under src/; per the spec they
are the four domain-error kinds raised by the AccountingService boundary. -/
inductive Exn where
  | valueError (m : String)
  | keyError (m : String)
  | indexError (m : String)
  | typeError (m : String)
  | zeroDivisionError (m : String)
  | attributeError (m : String)
  | recursionError
  | valueCommand (m : String)
  | accountCommand (m : String)
  | unauthorizedCommand (m : String)
  | processCommand (m : String)
deriving DecidableEq

/-- A handler reply: either plain text or the structured dict reply used by
the `shoot` handler (`{"response": ..., "to_be_muted": ...}`). -/
inductive Reply where
  | text (s : String)
  | structured (response : String) (to_be_muted : Value)

/-- Modelled from the spec: an account object as observed by this layer
(`get_balance`, `get_authorization`); the account model itself is owned by
the opaque AccountingService. -/
structure Account where
  balance : Rat
  auth : Authorization
deriving DecidableEq

/-- Modelled from the spec: the opaque AccountingService boundary (the
`commands` and `accounting` modules are not under src/).  `state` is the
abstract domain state; `call` is the generic service operation used by the
one-line glue handlers; the operations whose results the dispatch core
inspects structurally are given typed fields. -/
structure Server where
  state : List String
  verify_proxy : Value → Value → Option String → String → Bool
  balance : Value → Value → Except Exn Rat
  list_public_accounts : Value → Except Exn (List Account)
  list_accounts : Value → Except Exn (List Account)
  get_account_ids : Account → List String
  get_farm_balance : Value → Value → Except Exn (List String)
  call : String → List Value → List String → Except Exn (Value × List String)

/-- Generic service invocation: threads the abstract domain state. -/
def Server.svc (s : Server) (op : String) (args : List Value) :
    Except Exn (Value × Server) :=
  match s.call op args s.state with
  | .ok (v, st) => .ok (v, { s with state := st })
  | .error e => .error e

/-- Splits a character list at every separator position (keeping empty
pieces, like Python `str.split(sep)`). -/
def splitChars (p : Char → Bool) : List Char → List Char → List String
  | [], acc => [String.mk acc.reverse]
  | c :: cs, acc =>
      if p c then String.mk acc.reverse :: splitChars p cs []
      else splitChars p cs (c :: acc)

/-- Python `str.split()` with no separator: split on whitespace runs,
discarding empty pieces. -/
def pySplit (s : String) : List String :=
  (splitChars Char.isWhitespace s.data []).filter (fun t => !t.isEmpty)

/-- Python `int(token)` digit accumulation. -/
def digitsToNatAux : List Char → Nat → Option Nat
  | [], acc => some acc
  | c :: cs, acc =>
      if c.isDigit then digitsToNatAux cs (acc * 10 + (c.toNat - 48)) else none

/-- Python `int(token)` for a whitespace-free token: an optional sign
followed by at least one decimal digit.  (Python additionally allows
digit-group underscores and surrounding whitespace; no registered command
relies on either.) -/
def pyToInt? (s : String) : Option Int :=
  match s.data with
  | [] => none
  | '-' :: cs =>
      if cs.isEmpty then none
      else (digitsToNatAux cs 0).map (fun n => -(n : Int))
  | '+' :: cs =>
      if cs.isEmpty then none
      else (digitsToNatAux cs 0).map (fun n => (n : Int))
  | cs => (digitsToNatAux cs 0).map (fun n => (n : Int))

/-- Python `str.lower()` (ASCII case folding suffices here). -/
def pyLower (s : String) : String := String.mk (s.data.map Char.toLower)

/-- Python `str.strip()`: removes leading and trailing whitespace. -/
def pyStrip (s : String) : String :=
  String.mk (((s.data.dropWhile Char.isWhitespace).reverse.dropWhile
    Char.isWhitespace).reverse)

/-- `str` of a `Fraction`: `a/b`, or just `a` for integral values. -/
def fracStr (q : Rat) : String :=
  if q.den = 1 then toString q.num
  else toString q.num ++ "/" ++ toString q.den

/-- Python `str()` of the values this layer prints.  `str` of an
`AccountId` is modelled from the spec as its identifier text. -/
def pyStr : Value → String
  | .str s => s
  | .int n => toString n
  | .frac q => fracStr q
  | .accountId a => a
  | .auth a => "Authorization." ++ a.name
  | .noneV => "None"

/-- Modelled from the spec: `AccountId.readable()` (accounting module, not
under src/); a str author has no such attribute, as in Python. -/
def readable : Value → Except Exn String
  | .accountId a => .ok a
  | v => .error (.attributeError (pyStr v ++ " has no attribute readable"))

/-- Python truthiness for the values the handlers branch on. -/
def pyTruthy : Value → Bool
  | .str s => !s.isEmpty
  | .int n => n != 0
  | .frac q => q != 0
  | .accountId _ => true
  | .auth _ => true
  | .noneV => false

/-- Round half-to-even (Python `round`) of a rational to an integer. -/
def roundHalfEven (x : Rat) : Int :=
  let f : Int := ⌊x⌋
  let r : Rat := x - (f : Rat)
  if r < 1/2 then f
  else if 1/2 < r then f + 1
  else if f % 2 = 0 then f else f + 1

/-- `_rounded` from the source: `str(round(float(f), 2))`.  The float
round-trip is modelled by exact rational rounding to two decimals; the
rendering keeps at least one decimal digit as Python's float `str` does. -/
def _rounded (q : Rat) : String :=
  let c : Int := roundHalfEven (q * 100)
  let sign := if c < 0 then "-" else ""
  let n := c.natAbs
  let ip := n / 100
  let fp := n % 100
  sign ++ toString ip ++ "." ++
    (if fp = 0 then "0"
     else if fp % 10 = 0 then toString (fp / 10)
     else if fp < 10 then "0" ++ toString fp
     else toString fp)

/-- `_mixed` from the source: renders a `Fraction` as a mixed number. -/
def _mixed (q : Rat) : String :=
  if q.den = 1 then toString q.num
  else if q ≤ 1 then toString q.num ++ "/" ++ toString q.den
  else toString (q.num / (q.den : Int)) ++ " " ++
       toString (q.num % (q.den : Int)) ++ "/" ++ toString q.den

/-- Left-justify to width `w` (Python format spec `:<w`). -/
def ljust (s : String) (w : Nat) : String :=
  s ++ String.mk (List.replicate (w - s.length) ' ')

/-- Right-justify to width `w` (Python format spec `:>w`). -/
def rjust (s : String) (w : Nat) : String :=
  String.mk (List.replicate (w - s.length) ' ') ++ s

/-- A coercion rule stored in a command's argument dict: maps one raw
token to a typed value or raises. -/
abbrev Coercer := String → Except Exn Value

/-- The `str` coercion rule (identity on the token). -/
def strCoerce : Coercer := fun tok => .ok (.str tok)

/-- The `int` coercion rule: Python `int(token)`. -/
def intCoerce : Coercer := fun tok =>
  match pyToInt? tok with
  | some n => .ok (.int n)
  | none =>
      .error (.valueError ("invalid literal for int() with base 10: '" ++ tok ++ "'"))

/-- The `Fraction` coercion rule: accepts an integer literal or `a/b`.
(Python's `Fraction` also accepts decimal literals; no registered command
relies on that.) -/
def fractionCoerce : Coercer := fun tok =>
  match splitChars (fun c => c == '/') tok.data [] with
  | [a] =>
      match pyToInt? a with
      | some n => .ok (.frac (n : Rat))
      | none => .error (.valueError ("Invalid literal for Fraction: '" ++ tok ++ "'"))
  | [a, b] =>
      match pyToInt? a, pyToInt? b with
      | some n, some d =>
          if d = 0 then .error (.zeroDivisionError ("Fraction(" ++ toString n ++ ", 0)"))
          else .ok (.frac ((n : Rat) / (d : Rat)))
      | _, _ => .error (.valueError ("Invalid literal for Fraction: '" ++ tok ++ "'"))
  | _ => .error (.valueError ("Invalid literal for Fraction: '" ++ tok ++ "'"))

/-- Modelled from the spec: `parse_account_id` (accounting module, not
under src/).  The spec only requires a total function from token to typed
value or coercion failure; every nonempty token is modelled as a valid
account identifier. -/
def parse_account_id : Coercer := fun tok =>
  if tok.isEmpty then .error (.valueError "invalid account id")
  else .ok (.accountId tok)

/-- The `leader-board` limit rule from the source:
`lambda x: None if int(x) < 0 else int(x)`. -/
def leaderLimitCoerce : Coercer := fun tok =>
  match pyToInt? tok with
  | some n => if n < 0 then .ok .noneV else .ok (.int n)
  | none =>
      .error (.valueError ("invalid literal for int() with base 10: '" ++ tok ++ "'"))

/-- The lookup table built by the `authorize` level rule:
`{a.name.lower(): a for a in Authorization}`. -/
def authorizationTable : List (String × Authorization) :=
  Authorization.all.map (fun a => (pyLower a.name, a))

/-- Generic association-list lookup (Python dict `d[k]` access order). -/
def lookupAssoc {α : Type} (l : List (String × α)) (k : String) : Option α :=
  match l.find? (fun p => p.1 == k) with
  | some p => some p.2
  | none => none

/-- The `authorize` level rule from the source:
`lambda s: {a.name.lower(): a for a in Authorization}[s.lower()]`;
an unrecognized name raises `KeyError`. -/
def authLevelCoerce : Coercer := fun tok =>
  match lookupAssoc authorizationTable (pyLower tok) with
  | some a => .ok (.auth a)
  | none => .error (.keyError ("'" ++ pyLower tok ++ "'"))

/-- Tags identifying the handler functions of `bot_commands.py`.  A tag
plays the role of the Python function reference stored in
`_Command.func`; `applyHandler` below maps each tag to its body. -/
inductive HandlerTag where
  | t_name
  | t_transfer
  | t_adm_transfer
  | t_open_account
  | t_set_public
  | t_leader_board
  | t_adm_open_account
  | t_freeze_account
  | t_unfreeze_account
  | t_balance
  | t_full_balance
  | t_money_supply
  | t_add_public_key
  | t_list_accounts
  | t_print_money
  | t_remove_funds
  | t_create_recurring_transfer
  | t_admin_create_recurring_transfer
  | t_proxy
  | t_proxy_dsa
  | t_request_alias
  | t_add_alias
  | t_admin_add_proxy
  | t_admin_remove_proxy
  | t_delete_account
  | t_add_tax_bracket
  | t_remove_tax_bracket
  | t_force_tax
  | t_toggle_auto_tax
  | t_force_ticks
  | t_shoot_account
  | t_set_gun_price
  | t_set_vest_price
  | t_buy_gun
  | t_buy_vest
  | t_gun_balance
  | t_vest_balance
  | t_buy_farm
  | t_set_farm_type_cost
  | t_set_farm_type_duration
  | t_set_farm_type_returns
  | t_farm_balance
  | t_authorize
  | t_help
deriving DecidableEq

/-- `_Command` from the source: name, argument dict (name ↦ (rule, help)),
handler reference and description.  The argument dict preserves insertion
order and is modelled as a list of entries. -/
structure Command where
  name : String
  args : List (String × Coercer × String)
  func : HandlerTag
  description : String

/-- `_Command.usage` from the source. -/
def Command.usage (c : Command) : String :=
  String.intercalate "\n"
    ["Usage: " ++ c.name ++ " " ++ String.intercalate " " (c.args.map (fun p => p.1)),
     c.description ++ "",
     "Options: ",
     String.intercalate "\n" (c.args.map (fun p => "    " ++ p.1 ++ " -- " ++ p.2.2))]

/-- `_Command.copy` from the source: a fresh object with the same fields. -/
def Command.copy (c : Command) : Command :=
  Command.mk c.name c.args c.func c.description

/-- The global `_commands` dict together with the heap of `_Command`
objects it points into.  `entries` is the dict (name ↦ object id, in dict
order); `store` is the heap, ids being indices; `_add_command` and
`_alias` both allocate fresh objects, which is what makes an alias an
independent copy. -/
structure Commands where
  entries : List (String × Nat)
  store : List Command

/-- The empty registry. -/
def Commands.empty : Commands := ⟨[], []⟩

/-- Python dict update `d.update({k: v})`: replaces in place if the key
exists (keeping its position), else appends. -/
def updateAssoc {α : Type} (l : List (String × α)) (k : String) (v : α) :
    List (String × α) :=
  if l.any (fun p => p.1 == k) then
    l.map (fun p => if p.1 == k then (k, v) else p)
  else l ++ [(k, v)]

/-- `_add_command` from the source: allocates a `_Command` and inserts it
under its name. -/
def Commands.addCmd (cs : Commands) (name : String)
    (args : List (String × Coercer × String)) (func : HandlerTag)
    (description : String) : Commands :=
  ⟨updateAssoc cs.entries name cs.store.length,
   cs.store ++ [Command.mk name args func description]⟩

/-- `_alias` from the source: copies the existing `_Command`, renames the
copy and inserts it under the alias.  (If the original name were absent
the Python code would raise `KeyError`; every `_alias` call in the source
refers to a name registered earlier, so that branch is modelled as a
no-op.) -/
def Commands.aliasCmd (cs : Commands) (name alias_ : String) : Commands :=
  match lookupAssoc cs.entries name with
  | none => cs
  | some i =>
    match cs.store.get? i with
    | none => cs
    | some c =>
      let cmd := { c.copy with name := alias_ }
      ⟨updateAssoc cs.entries alias_ cs.store.length, cs.store ++ [cmd]⟩

/-- Dict lookup `_commands[name]`, dereferencing the object id. -/
def Commands.lookup (cs : Commands) (name : String) : Option Command :=
  match lookupAssoc cs.entries name with
  | some i => cs.store.get? i
  | none => none

/-- `_commands.values()` in dict order. -/
def Commands.values (cs : Commands) : List Command :=
  cs.entries.filterMap (fun p => cs.store.get? p.2)

/-- Mutation `obj.description = d` on the `_Command` object with id `i`:
only that heap cell changes. -/
def Commands.setDescription (cs : Commands) (i : Nat) (d : String) : Commands :=
  match cs.store.get? i with
  | some c => { cs with store := cs.store.set i { c with description := d } }
  | none => cs

/-- Lexicographic comparison of character lists by code point, as Python
compares strings. -/
def charListLe : List Char → List Char → Bool
  | [], _ => true
  | _ :: _, [] => false
  | a :: as, b :: bs =>
      if a.toNat < b.toNat then true
      else if b.toNat < a.toNat then false
      else charListLe as bs

/-- Python string `<=` (code-point lexicographic order). -/
def strLe (a b : String) : Bool := charListLe a.data b.data

/-- Stable insertion into an association list sorted by key. -/
def insertByKey (p : String × Nat) : List (String × Nat) → List (String × Nat)
  | [] => [p]
  | q :: qs => if strLe p.1 q.1 then p :: q :: qs else q :: insertByKey p qs

/-- Stable sort by key, modelling
`{k: v for k, v in sorted(_commands.items(), key=lambda x: x[0])}`. -/
def sortByKey : List (String × Nat) → List (String × Nat)
  | [] => []
  | p :: ps => insertByKey p (sortByKey ps)

/-- Stable insertion used to model Python's stable
`sorted(..., key=get_balance, reverse=True)`: an element is placed before
the first element whose balance is not greater, so earlier input elements
precede later ones of equal balance. -/
def insertDesc (a : Account) : List Account → List Account
  | [] => [a]
  | b :: bs => if b.balance ≤ a.balance then a :: b :: bs else b :: insertDesc a bs

/-- Stable descending sort by balance, extensionally equal to Python's
`sorted(accounts, key=lambda x: x.get_balance(), reverse=True)`. -/
def pySortedDesc : List Account → List Account
  | [] => []
  | a :: rest => insertDesc a (pySortedDesc rest)

/-- Python `enumerate` starting at `i`. -/
def pyEnumFrom {α : Type} (i : Nat) : List α → List (Nat × α)
  | [] => []
  | a :: rest => (i, a) :: pyEnumFrom (i + 1) rest

/-- One leader-board row:
`f"{i + 1:<3} | {ids:<28} | {auth:<9} | {balance:>8}"`. -/
def lbLine (server : Server) (i : Nat) (acc : Account) : String :=
  ljust (toString (i + 1)) 3 ++ " | " ++
  ljust (String.intercalate ":" (server.get_account_ids acc)) 28 ++ " | " ++
  ljust (pyLower acc.auth.name) 9 ++ " | " ++
  rjust (_rounded acc.balance) 8

/-- The leader-board list comprehension:
`[row for i, acc in enumerate(accounts) if limit is None or i < limit]`. -/
def lbLines (server : Server) (accounts : List Account) (limit : Option Int) :
    List String :=
  ((pyEnumFrom 0 accounts).filter
    (fun p => match limit with
      | none => true
      | some k => decide ((p.1 : Int) < k))).map
    (fun p => lbLine server p.1 p.2)

/-- The type of the recursive re-entry point handed to handlers:
`run_command` at the remaining call-stack budget. -/
abbrev Rec := Value → String → Server → Except Exn (Reply × Server)

/-- Python `str(e)` for the exception kinds (used by `_shoot_account`'s
`except Exception` branch). -/
def exnStr : Exn → String
  | .valueError m => m
  | .keyError m => m
  | .indexError m => m
  | .typeError m => m
  | .zeroDivisionError m => m
  | .attributeError m => m
  | .recursionError => "maximum recursion depth exceeded"
  | .valueCommand m => m
  | .accountCommand m => m
  | .unauthorizedCommand m => m
  | .processCommand m => m

/-- Handler `_name`. -/
def _name (author : Value) (rest : String) (server : Server) :
    Except Exn (Reply × Server) :=
  let _ := rest
  match server.svc "name" [author] with
  | .ok (v, s) => .ok (.text ("Your ID for the purpose of accounting is " ++ pyStr v), s)
  | .error e => .error e

/-- Handler `_transfer`. -/
def _transfer (author amount destination : Value) (rest : String)
    (server : Server) : Except Exn (Reply × Server) :=
  let _ := rest
  match server.svc "transfer" [author, author, destination, amount] with
  | .ok (_, s) =>
      .ok (.text ("Transferred " ++ pyStr amount ++ " to " ++ pyStr destination), s)
  | .error e => .error e

/-- Handler `_adm_transfer`. -/
def _adm_transfer (author amount source destination : Value) (rest : String)
    (server : Server) : Except Exn (Reply × Server) :=
  let _ := rest
  match server.svc "transfer" [author, source, destination, amount] with
  | .ok (_, s) =>
      .ok (.text ("Transferred " ++ pyStr amount ++ " from " ++ pyStr source ++
                  " to " ++ pyStr destination), s)
  | .error e => .error e

/-- Handler `_open_account`. -/
def _open_account (author : Value) (rest : String) (server : Server) :
    Except Exn (Reply × Server) :=
  let _ := rest
  match server.svc "open_account" [author, author] with
  | .error (.valueCommand _) =>
      .ok (.text "Looks like you already have an account. No need to open another one",
           server)
  | .error e => .error e
  | .ok (_, s) => .ok (.text "Account opened succesfully", s)

/-- Handler `_set_public`. -/
def _set_public (author : Value) (rest : String) (server : Server) :
    Except Exn (Reply × Server) :=
  let _ := rest
  match server.svc "toggle_public" [author, author] with
  | .ok (v, s) =>
      .ok (.text ("Account marked as " ++ (if pyTruthy v then "public" else "private")), s)
  | .error e => .error e

/-- Handler `_leader_board`. -/
def _leader_board (author limit : Value) (rest : String) (server : Server) :
    Except Exn (Reply × Server) :=
  let _ := rest
  match server.list_public_accounts author with
  | .error e => .error e
  | .ok accs =>
      let accounts := pySortedDesc accs
      let lim : Option Int := match limit with
        | .int k => some k
        | _ => none
      .ok (.text (String.intercalate "\n" (lbLines server accounts lim)), server)

/-- Handler `_adm_open_account`. -/
def _adm_open_account (author account : Value) (rest : String) (server : Server) :
    Except Exn (Reply × Server) :=
  let _ := rest
  match server.svc "open_account" [author, account] with
  | .error (.valueCommand _) =>
      .ok (.text "Looks like they already have an account\nNo need to open a new one",
           server)
  | .error e => .error e
  | .ok (_, s) => .ok (.text "Account opened successfully", s)

/-- Handler `_freeze_account`. -/
def _freeze_account (author account : Value) (rest : String) (server : Server) :
    Except Exn (Reply × Server) :=
  let _ := rest
  match server.svc "freeze_account" [author, account] with
  | .ok (_, s) => .ok (.text "Account frozen", s)
  | .error e => .error e

/-- Handler `_unfreeze_account`. -/
def _unfreeze_account (author account : Value) (rest : String) (server : Server) :
    Except Exn (Reply × Server) :=
  let _ := rest
  match server.svc "unfreeze_account" [author, account] with
  | .ok (_, s) => .ok (.text "Account unfrozen", s)
  | .error e => .error e

/-- Handler `_balance`. -/
def _balance (author : Value) (rest : String) (server : Server) :
    Except Exn (Reply × Server) :=
  let _ := rest
  match server.balance author author with
  | .ok bal => .ok (.text ("Your balance is " ++ _rounded bal), server)
  | .error e => .error e

/-- Handler `_full_balance`. -/
def _full_balance (author : Value) (rest : String) (server : Server) :
    Except Exn (Reply × Server) :=
  let _ := rest
  match server.balance author author with
  | .ok bal => .ok (.text ("Your un-rounded balance is " ++ _mixed bal), server)
  | .error e => .error e

/-- Handler `_money_supply`. -/
def _money_supply (author : Value) (rest : String) (server : Server) :
    Except Exn (Reply × Server) :=
  let _ := rest
  match server.svc "get_money_supply" [author] with
  | .ok (.frac q, s) => .ok (.text ("The total money supply is " ++ _mixed q), s)
  | .ok (_, _) => .error (.attributeError "object has no attribute numerator")
  | .error e => .error e

/-- Handler `_add_public_key`. -/
def _add_public_key (author key : Value) (rest : String) (server : Server) :
    Except Exn (Reply × Server) :=
  let pem := String.intercalate "\n"
    ((splitChars (fun c => c == '\n') (pyStr key ++ " " ++ rest).data []).filter
      (fun l => !l.isEmpty && !(l.data.all Char.isWhitespace)))
  match server.svc "add_public_key" [author, author, .str pem] with
  | .ok (_, s) => .ok (.text "Public key added successfully", s)
  | .error e => .error e

/-- Handler `_list_accounts`. -/
def _list_accounts (author : Value) (rest : String) (server : Server) :
    Except Exn (Reply × Server) :=
  let _ := rest
  match server.list_accounts author with
  | .error e => .error e
  | .ok accs =>
      .ok (.text (String.intercalate "\n"
        (accs.map (fun acc =>
          " " ++ ljust (String.intercalate ":" (server.get_account_ids acc)) 28 ++
          " | " ++ ljust (pyLower acc.auth.name) 9 ++
          " | " ++ rjust (_rounded acc.balance) 8))), server)

/-- Handler `_print_money`. -/
def _print_money (author amount account : Value) (rest : String) (server : Server) :
    Except Exn (Reply × Server) :=
  let _ := rest
  match server.svc "print_money" [author, account, amount] with
  | .error (.valueCommand _) =>
      .ok (.text "Invalid arguement: Cannot print negative amounts", server)
  | .error e => .error e
  | .ok (_, s) =>
      match amount with
      | .frac q => .ok (.text ("Printed " ++ _mixed q ++ " to " ++ pyStr account), s)
      | _ => .error (.attributeError "object has no attribute numerator")

/-- Handler `_remove_funds`. -/
def _remove_funds (author amount account : Value) (rest : String) (server : Server) :
    Except Exn (Reply × Server) :=
  let _ := rest
  match server.svc "remove_funds" [author, account, amount] with
  | .error (.valueCommand _) =>
      .ok (.text "Invalid argument: Cannot remove negative amounts", server)
  | .error e => .error e
  | .ok (_, s) =>
      match amount with
      | .frac q => .ok (.text ("Deleted " ++ _mixed q ++ " from " ++ pyStr account), s)
      | _ => .error (.attributeError "object has no attribute numerator")

/-- Handler `_create_recurring_transfer`. -/
def _create_recurring_transfer (author amount destination tick_count : Value)
    (rest : String) (server : Server) : Except Exn (Reply × Server) :=
  let _ := rest
  match server.svc "create_recurring_transfer"
      [author, author, destination, amount, tick_count] with
  | .error e => .error e
  | .ok (transfer_id, s) =>
      match amount with
      | .frac q =>
          match readable destination with
          | .error e => .error e
          | .ok r =>
              .ok (.text ("Set up recurring transfer of " ++ _mixed q ++
                          " to " ++ r ++ " every " ++ pyStr tick_count ++ " ticks" ++
                          " (Transfer " ++ pyStr transfer_id ++ ")."), s)
      | _ => .error (.attributeError "object has no attribute numerator")

/-- Handler `_admin_create_recurring_transfer` (defined in the source but,
due to the registration slip, never referenced by the registry). -/
def _admin_create_recurring_transfer (author amount source destination tick_count : Value)
    (rest : String) (server : Server) : Except Exn (Reply × Server) :=
  let _ := rest
  match server.svc "create_recurring_transfer"
      [author, source, destination, amount, tick_count] with
  | .error e => .error e
  | .ok (transfer_id, s) =>
      match amount with
      | .frac q =>
          match readable source with
          | .error e => .error e
          | .ok rs =>
              match readable destination with
              | .error e => .error e
              | .ok rd =>
                  .ok (.text ("Set up recurring transfer of " ++ _mixed q ++
                              " from " ++ rs ++
                              " to " ++ rd ++ " every " ++ pyStr tick_count ++ " ticks" ++
                              " (Transfer " ++ pyStr transfer_id ++ ")."), s)
      | _ => .error (.attributeError "object has no attribute numerator")

/-- Handler `_proxy`: gated re-entry into `run_command` under the target
identity (`rec` is the dispatcher's re-entry point). -/
def _proxy (rec : Rec) (author account command : Value) (rest : String)
    (server : Server) : Except Exn (Reply × Server) :=
  match command with
  | .str c =>
      if server.verify_proxy author account none (c ++ " " ++ rest) then
        rec account (c ++ " " ++ rest) server
      else .ok (.text "Unauthorized proxy", server)
  | _ => .error (.typeError "can only concatenate str to str")

/-- Handler `_proxy_dsa`: like `_proxy` with a caller-supplied signature. -/
def _proxy_dsa (rec : Rec) (author account signature command : Value) (rest : String)
    (server : Server) : Except Exn (Reply × Server) :=
  match signature, command with
  | .str sig, .str c =>
      if server.verify_proxy author account (some sig) (c ++ " " ++ rest) then
        rec account (c ++ " " ++ rest) server
      else .ok (.text "Unauthorized proxy", server)
  | _, _ => .error (.typeError "can only concatenate str to str")

/-- Handler `_request_alias`. -/
def _request_alias (author alias_ : Value) (rest : String) (server : Server) :
    Except Exn (Reply × Server) :=
  let _ := rest
  match server.svc "request_alias" [author, alias_] with
  | .ok (code, s) => .ok (.text ("Alias request code: `" ++ pyStr code ++ "`"), s)
  | .error e => .error e

/-- Handler `_add_alias` (note the missing space before "now", as in the
source's `''.join`). -/
def _add_alias (author account request_code : Value) (rest : String)
    (server : Server) : Except Exn (Reply × Server) :=
  let _ := rest
  match server.svc "add_alias" [author, account, request_code] with
  | .error e => .error e
  | .ok (_, s) =>
      match readable author with
      | .error e => .error e
      | .ok r1 =>
          match readable account with
          | .error e => .error e
          | .ok r2 =>
              .ok (.text (r1 ++ " and " ++ r2 ++ "now refer to the same account"), s)

/-- Handler `_admin_add_proxy`. -/
def _admin_add_proxy (author proxy_acct account : Value) (rest : String)
    (server : Server) : Except Exn (Reply × Server) :=
  let _ := rest
  match server.svc "add_proxy" [author, account, proxy_acct] with
  | .ok (_, s) => .ok (.text "Account proxied", s)
  | .error e => .error e

/-- Handler `_admin_remove_proxy`. -/
def _admin_remove_proxy (author proxy_acct account : Value) (rest : String)
    (server : Server) : Except Exn (Reply × Server) :=
  let _ := rest
  match server.svc "remove_proxy" [author, account, proxy_acct] with
  | .ok (_, s) => .ok (.text "Account unproxied", s)
  | .error e => .error e

/-- Handler `_delete_account`. -/
def _delete_account (author account : Value) (rest : String) (server : Server) :
    Except Exn (Reply × Server) :=
  let _ := rest
  match server.svc "delete_account" [author, account] with
  | .ok (_, s) => .ok (.text "Account deleted.", s)
  | .error e => .error e

/-- Handler `_add_tax_bracket`.  Its positional parameters are
`(start, rate, end, name)` while the registered dict declares
`(start, end, rate, name)`; the embedding binds positionally, as Python
does. -/
def _add_tax_bracket (author start rate end_ name : Value) (rest : String)
    (server : Server) : Except Exn (Reply × Server) :=
  let _ := rest
  match end_ with
  | .frac e =>
      let endv : Value := if (0 : Rat) ≤ e then .frac e else .noneV
      match server.svc "add_tax_bracket" [author, start, endv, rate, name] with
      | .ok (_, s) =>
          .ok (.text ("Tax bracket " ++ pyStr name ++ ": [" ++ pyStr start ++ "–" ++
                      pyStr endv ++ "] " ++ pyStr rate ++ " added"), s)
      | .error e => .error e
  | _ => .error (.typeError "unorderable types")

/-- Handler `_remove_tax_bracket`. -/
def _remove_tax_bracket (author name : Value) (rest : String) (server : Server) :
    Except Exn (Reply × Server) :=
  let _ := rest
  match server.svc "remove_tax_bracket" [author, name] with
  | .ok (_, s) => .ok (.text "Removed tax bracket", s)
  | .error e => .error e

/-- Handler `_force_tax`. -/
def _force_tax (author : Value) (rest : String) (server : Server) :
    Except Exn (Reply × Server) :=
  let _ := rest
  match server.svc "force_tax" [author] with
  | .ok (_, s) => .ok (.text "Applied tax", s)
  | .error e => .error e

/-- Handler `_toggle_auto_tax`. -/
def _toggle_auto_tax (author : Value) (rest : String) (server : Server) :
    Except Exn (Reply × Server) :=
  let _ := rest
  match server.svc "auto_tax" [author] with
  | .ok (v, s) =>
      .ok (.text ("Automatic taxation " ++ (if pyTruthy v then "on" else "off")), s)
  | .error e => .error e

/-- Handler `_force_ticks`. -/
def _force_ticks (author ticks : Value) (rest : String) (server : Server) :
    Except Exn (Reply × Server) :=
  let _ := rest
  match server.svc "force_ticks" [author, ticks] with
  | .ok (_, s) => .ok (.text ("Forced " ++ pyStr ticks ++ " ticks"), s)
  | .error e => .error e

/-- Handler `_shoot_account`: the only handler returning the structured
reply; its `except Exception` branch inspects `str(e)`. -/
def _shoot_account (author victim : Value) (rest : String) (server : Server) :
    Except Exn (Reply × Server) :=
  let _ := rest
  match server.svc "shoot_account" [author, author, victim] with
  | .error e =>
      if exnStr e = "Victim cannot be shot" then
        .ok (.text ("You tried to shoot " ++ pyStr victim ++ " but they dodged"), server)
      else .error e
  | .ok (was_shot, s) =>
      if pyTruthy was_shot then
        .ok (.structured ("Successfully shot " ++ pyStr victim) victim, s)
      else
        .ok (.text ("You tried to shoot " ++ pyStr victim ++
                    " but they had a bullet-proof vest that protected them.\n" ++
                    "Because of your shot, their vest has been damaged and they are now vulnerable."),
             s)

/-- Handler `_set_gun_price`. -/
def _set_gun_price (author price : Value) (rest : String) (server : Server) :
    Except Exn (Reply × Server) :=
  let _ := rest
  match server.svc "set_gun_price" [author, price] with
  | .ok (_, s) => .ok (.text ("Set price to " ++ pyStr price), s)
  | .error e => .error e

/-- Handler `_set_vest_price`. -/
def _set_vest_price (author price : Value) (rest : String) (server : Server) :
    Except Exn (Reply × Server) :=
  let _ := rest
  match server.svc "set_vest_price" [author, price] with
  | .ok (_, s) => .ok (.text ("Set price to " ++ pyStr price), s)
  | .error e => .error e

/-- Handler `_buy_gun`. -/
def _buy_gun (author : Value) (rest : String) (server : Server) :
    Except Exn (Reply × Server) :=
  let _ := rest
  match server.svc "buy_gun" [author] with
  | .ok (_, s) => .ok (.text "You bought a gun", s)
  | .error e => .error e

/-- Handler `_buy_vest`. -/
def _buy_vest (author : Value) (rest : String) (server : Server) :
    Except Exn (Reply × Server) :=
  let _ := rest
  match server.svc "buy_vest" [author] with
  | .ok (_, s) => .ok (.text "You bought a vest", s)
  | .error e => .error e

/-- The shared prologue of `_gun_balance`, `_vest_balance` and
`_farm_balance`: `account = author` unless `rest` is nonempty, in which
case `parse_account_id(rest.split()[0])`. -/
def accountFromRest (author : Value) (rest : String) : Except Exn Value :=
  if rest = "" then .ok author
  else
    match pySplit rest with
    | [] => .error (.indexError "list index out of range")
    | t :: _ => parse_account_id t

/-- Handler `_gun_balance`. -/
def _gun_balance (author : Value) (rest : String) (server : Server) :
    Except Exn (Reply × Server) :=
  match accountFromRest author rest with
  | .error e => .error e
  | .ok account =>
      match server.svc "gun_balance" [author, account] with
      | .error e => .error e
      | .ok (bal, s) =>
          if account == author then
            .ok (.text ("your gun-balance is " ++ pyStr bal), s)
          else
            .ok (.text (pyStr account ++ " 's gun-balance is " ++ pyStr bal), s)

/-- Handler `_vest_balance`. -/
def _vest_balance (author : Value) (rest : String) (server : Server) :
    Except Exn (Reply × Server) :=
  match accountFromRest author rest with
  | .error e => .error e
  | .ok account =>
      match server.svc "vest_balance" [author, account] with
      | .error e => .error e
      | .ok (has_vest, s) =>
          if pyTruthy has_vest then
            .ok (.text (pyStr account ++ " has a vest"), s)
          else
            .ok (.text (pyStr account ++ " does not have a vest"), s)

/-- Handler `_buy_farm`. -/
def _buy_farm (author farm_name : Value) (rest : String) (server : Server) :
    Except Exn (Reply × Server) :=
  let _ := rest
  match server.svc "buy_farm" [author, farm_name] with
  | .ok (_, s) => .ok (.text ("Successfully bought " ++ pyStr farm_name), s)
  | .error e => .error e

/-- Handler `_set_farm_type_cost`. -/
def _set_farm_type_cost (author farm_name new_cost : Value) (rest : String)
    (server : Server) : Except Exn (Reply × Server) :=
  let _ := rest
  match server.svc "set_farm_cost" [author, farm_name, new_cost] with
  | .ok (_, s) => .ok (.text (pyStr farm_name ++ " now costs " ++ pyStr new_cost), s)
  | .error e => .error e

/-- Handler `_set_farm_type_duration`. -/
def _set_farm_type_duration (author farm_name new_duration : Value) (rest : String)
    (server : Server) : Except Exn (Reply × Server) :=
  let _ := rest
  match server.svc "set_farm_duration" [author, farm_name, new_duration] with
  | .ok (_, s) =>
      .ok (.text (pyStr farm_name ++ " now lasts for " ++ pyStr new_duration ++ " days"), s)
  | .error e => .error e

/-- Handler `_set_farm_type_returns`. -/
def _set_farm_type_returns (author farm_name new_returns : Value) (rest : String)
    (server : Server) : Except Exn (Reply × Server) :=
  let _ := rest
  match server.svc "set_farm_type_returns" [author, farm_name, new_returns] with
  | .ok (_, s) =>
      .ok (.text (pyStr farm_name ++ " now returns " ++ pyStr new_returns ++ "/day"), s)
  | .error e => .error e

/-- Handler `_farm_balance` (the odd use of the inventory text as a join
separator is faithful to the source). -/
def _farm_balance (author : Value) (rest : String) (server : Server) :
    Except Exn (Reply × Server) :=
  match accountFromRest author rest with
  | .error e => .error e
  | .ok account =>
      match server.get_farm_balance author account with
      | .error e => .error e
      | .ok names =>
          if names.length > 0 then
            .ok (.text (String.intercalate "Your inventory contains "
                          (names.map (fun n => n ++ ", "))), server)
          else .ok (.text "Your inventory is empty", server)

/-- Handler `_authorize`. -/
def _authorize (author account level : Value) (rest : String) (server : Server) :
    Except Exn (Reply × Server) :=
  let _ := rest
  match server.svc "authorize" [author, account, level] with
  | .ok (_, s) => .ok (.text "Authorized", s)
  | .error e => .error e

/-- Handler `_help`: reads the registry (the Python closure over the
global `_commands` dict is modelled by passing the registry in). -/
def _help (cs : Commands) (author : Value) (rest : String) (server : Server) :
    Except Exn (Reply × Server) :=
  let _ := author
  match pySplit (pyStrip rest) with
  | command_name :: _ =>
      match cs.lookup command_name with
      | some command => .ok (.text command.usage, server)
      | none => .ok (.text ("No such command: " ++ command_name), server)
  | [] =>
      .ok (.text ("List of commands:\n" ++
             String.intercalate "\n"
               (cs.values.map (fun c => "    " ++ c.name ++ " -- " ++ c.description))),
           server)

/-- The Python call `command.func(author, *args, rest, server)`: binds the
coerced arguments positionally; a count mismatch raises `TypeError`, as
the interpreter does. -/
def applyHandler (tag : HandlerTag) (rec : Rec) (cs : Commands) (author : Value)
    (args : List Value) (rest : String) (server : Server) :
    Except Exn (Reply × Server) :=
  match tag, args with
  | .t_name, [] => _name author rest server
  | .t_transfer, [amount, destination] => _transfer author amount destination rest server
  | .t_adm_transfer, [amount, source, destination] =>
      _adm_transfer author amount source destination rest server
  | .t_open_account, [] => _open_account author rest server
  | .t_set_public, [] => _set_public author rest server
  | .t_leader_board, [limit] => _leader_board author limit rest server
  | .t_adm_open_account, [account] => _adm_open_account author account rest server
  | .t_freeze_account, [account] => _freeze_account author account rest server
  | .t_unfreeze_account, [account] => _unfreeze_account author account rest server
  | .t_balance, [] => _balance author rest server
  | .t_full_balance, [] => _full_balance author rest server
  | .t_money_supply, [] => _money_supply author rest server
  | .t_add_public_key, [key] => _add_public_key author key rest server
  | .t_list_accounts, [] => _list_accounts author rest server
  | .t_print_money, [amount, account] => _print_money author amount account rest server
  | .t_remove_funds, [amount, account] => _remove_funds author amount account rest server
  | .t_create_recurring_transfer, [amount, destination, tick_count] =>
      _create_recurring_transfer author amount destination tick_count rest server
  | .t_admin_create_recurring_transfer, [amount, source, destination, tick_count] =>
      _admin_create_recurring_transfer author amount source destination tick_count rest server
  | .t_proxy, [account, command] => _proxy rec author account command rest server
  | .t_proxy_dsa, [account, signature, command] =>
      _proxy_dsa rec author account signature command rest server
  | .t_request_alias, [account] => _request_alias author account rest server
  | .t_add_alias, [account, request_code] =>
      _add_alias author account request_code rest server
  | .t_admin_add_proxy, [proxy_acct, account] =>
      _admin_add_proxy author proxy_acct account rest server
  | .t_admin_remove_proxy, [proxy_acct, account] =>
      _admin_remove_proxy author proxy_acct account rest server
  | .t_delete_account, [account] => _delete_account author account rest server
  | .t_add_tax_bracket, [start, rate, end_, name] =>
      _add_tax_bracket author start rate end_ name rest server
  | .t_remove_tax_bracket, [name] => _remove_tax_bracket author name rest server
  | .t_force_tax, [] => _force_tax author rest server
  | .t_toggle_auto_tax, [] => _toggle_auto_tax author rest server
  | .t_force_ticks, [ticks] => _force_ticks author ticks rest server
  | .t_shoot_account, [victim] => _shoot_account author victim rest server
  | .t_set_gun_price, [price] => _set_gun_price author price rest server
  | .t_set_vest_price, [price] => _set_vest_price author price rest server
  | .t_buy_gun, [] => _buy_gun author rest server
  | .t_buy_vest, [] => _buy_vest author rest server
  | .t_gun_balance, [] => _gun_balance author rest server
  | .t_vest_balance, [] => _vest_balance author rest server
  | .t_buy_farm, [farm_name] => _buy_farm author farm_name rest server
  | .t_set_farm_type_cost, [farm_name, new_cost] =>
      _set_farm_type_cost author farm_name new_cost rest server
  | .t_set_farm_type_duration, [farm_name, new_duration] =>
      _set_farm_type_duration author farm_name new_duration rest server
  | .t_set_farm_type_returns, [farm_name, new_returns] =>
      _set_farm_type_returns author farm_name new_returns rest server
  | .t_farm_balance, [] => _farm_balance author rest server
  | .t_authorize, [account, level] => _authorize author account level rest server
  | .t_help, [] => _help cs author rest server
  | _, _ =>
      .error (.typeError "takes a fixed number of positional arguments")

/-- The registry as assembled by the module-level `_add_command` and
`_alias` calls, in source order. -/
def _commands_initial : Commands :=
  Commands.empty
  |>.addCmd "name" [] .t_name
      "Produces your real or hypothetical account ID"
  |>.addCmd "transfer"
      [("amount", fractionCoerce, "Amount to transfer"),
       ("destination", parse_account_id, "Beneficiary to transfer to")]
      .t_transfer
      "Transfers an amount of money from your account to a beneficiary's"
  |>.addCmd "admin-transfer"
      [("amount", fractionCoerce, "Amount to transfer"),
       ("source", parse_account_id, "Account from which the amount is sent"),
       ("destination", parse_account_id, "Beneficiary to transfer to")]
      .t_adm_transfer
      "Transfers an amount of money from a source account to a beneficiary's"
  |>.addCmd "open" [] .t_open_account
      "Opens a new account"
  |>.addCmd "toggle-public" [] .t_set_public
      "toggle whether or not your account is public"
  |>.addCmd "leader-board"
      [("limit", leaderLimitCoerce,
        "the maximum number of accounts to display -1 for no limit")]
      .t_leader_board
      "view a list of all public accounts sorted by balance"
  |>.aliasCmd "leader-board" "lb"
  |>.addCmd "admin-open"
      [("account", parse_account_id, "Account to open")]
      .t_adm_open_account
      "Open a new account for someone else"
  |>.addCmd "admin-freeze"
      [("account", parse_account_id, "Account to freeze")]
      .t_freeze_account
      "Freeze an account"
  |>.addCmd "admin-unfreeze"
      [("account", parse_account_id, "Account to unfreeze")]
      .t_unfreeze_account
      "Unfreeze an account"
  |>.addCmd "balance" [] .t_balance
      "Print account balance"
  |>.aliasCmd "balance" "bal"
  |>.addCmd "full-balance" [] .t_full_balance
      "Print un-rounded balance"
  |>.aliasCmd "full-balance" "full-bal"
  |>.addCmd "money-supply" [] .t_money_supply
      "Print the total money supply"
  |>.addCmd "add-public-key"
      [("key", strCoerce, "Key to use")]
      .t_add_public_key
      "Adds a public key to your account"
  |>.addCmd "list" [] .t_list_accounts
      "List all accounts"
  |>.aliasCmd "list" "ls"
  |>.addCmd "print-money"
      [("amount", fractionCoerce, "Amount to print"),
       ("account", parse_account_id, "Account to print to")]
      .t_print_money
      "Print amount of money to account"
  |>.addCmd "remove-funds"
      [("amount", fractionCoerce, "Amount to delete"),
       ("account", parse_account_id, "Account to print to")]
      .t_remove_funds
      "Deletes fund from an account"
  |>.addCmd "create-recurring-transfer"
      [("amount", fractionCoerce, "Amount to transfer"),
       ("destination", parse_account_id, "Beneficiary to transfer to"),
       ("tick_count", intCoerce, "Interval to transfer by, in ticks")]
      .t_create_recurring_transfer
      "Create a transfer which reccurs according to an interval"
  |>.addCmd "admin-create-recurring-transfer"
      [("amount", fractionCoerce, "Amount to transfer"),
       ("source", fractionCoerce, "Source to transfer from"),
       ("destination", parse_account_id, "Beneficiary to transfer to"),
       ("tick_count", intCoerce, "Interval to transfer by, in ticks")]
      .t_create_recurring_transfer
      "Create a transfer from someone else which reccurs according to an interval"
  |>.addCmd "proxy"
      [("account", parse_account_id, "Account to proxy"),
       ("command", strCoerce, "Command to run")]
      .t_proxy
      "Proxy another account"
  |>.addCmd "proxy-dsa"
      [("account", parse_account_id, "Account to proxy"),
       ("signature", strCoerce, "ECDSA signature of command to run"),
       ("command", strCoerce, "Command to run")]
      .t_proxy_dsa
      "Proxy another account using ECDSA verification"
  |>.addCmd "request-alias"
      [("account", parse_account_id, "Account to alias")]
      .t_request_alias
      "Request an alias code"
  |>.addCmd "add-alias"
      [("account", parse_account_id, "Account to alias"),
       ("request_code", strCoerce, "Code generated on the other account")]
      .t_add_alias
      "Add another account as an alias"
  |>.addCmd "admin-add-proxy"
      [("proxy", parse_account_id,
        "Account that will be able to act as a proxy for `account`"),
       ("account", parse_account_id,
        "Account that `proxy` will be able to access")]
      .t_admin_add_proxy
      "Let an account proxy another account"
  |>.addCmd "admin-remove-proxy"
      [("proxy", parse_account_id,
        "Account that can currently act as a proxy for `account`"),
       ("account", parse_account_id,
        "Account that `proxy` will no longer be able to access")]
      .t_admin_remove_proxy
      "Unlet an account proxy another account"
  |>.addCmd "admin-delete-account"
      [("account", parse_account_id, "Account to delete")]
      .t_delete_account
      "Delete an account"
  |>.addCmd "add-tax-bracket"
      [("start", fractionCoerce, "Lower bound of the tax bracket"),
       ("end", fractionCoerce, "Upper bound of the tax bracker (-1 for infinity)"),
       ("rate", fractionCoerce, "Tax rate"),
       ("name", strCoerce, "Name of the tax bracket")]
      .t_add_tax_bracket
      "Add a tax bracket"
  |>.addCmd "remove-tax-bracket"
      [("name", strCoerce, "Name of the bracket to delete")]
      .t_remove_tax_bracket
      "Removes a tax bracker"
  |>.addCmd "force-tax" [] .t_force_tax
      "Manually apply tax brakcets"
  |>.addCmd "auto-tax" [] .t_toggle_auto_tax
      "Toggle automatic taxation"
  |>.addCmd "force-ticks"
      [("ticks", intCoerce, "Amount of ticks to force")]
      .t_force_ticks
      "Forcibly run ticks"
  |>.addCmd "shoot"
      [("victim", parse_account_id, "person to shoot")]
      .t_shoot_account
      "shoots Account"
  |>.addCmd "set-gun-price"
      [("price", fractionCoerce, "price for new guns")]
      .t_set_gun_price
      "Sets the price of a gun"
  |>.addCmd "set-vest-price"
      [("price", fractionCoerce, "price for new vests")]
      .t_set_vest_price
      "sets the price of a vest"
  |>.addCmd "buy-gun" [] .t_buy_gun
      "buys a gun"
  |>.addCmd "buy-vest" [] .t_buy_vest
      "buys a vest"
  |>.addCmd "gun-balance" [] .t_gun_balance
      "displays how many guns you own"
  |>.aliasCmd "gun-balance" "gun-bal"
  |>.addCmd "vest-balance" [] .t_vest_balance
      "displays whether or not you have a vest"
  |>.aliasCmd "vest-balance" "vest-bal"
  |>.addCmd "buy-farm"
      [("farm-type", strCoerce, "Type of the farm you want to buy")]
      .t_buy_farm
      "Buys a farm"
  |>.addCmd "set-farm-type-cost"
      [("farm-type", strCoerce, "Type of the farm you want to change the cost of"),
       ("new-cost", fractionCoerce, "The new cost of the farm")]
      .t_set_farm_type_cost
      "Sets the cost of a type of farm"
  |>.addCmd "set-farm-type-duration"
      [("farm-type", strCoerce, "Type of farm you want to change the duration of"),
       ("new-duration", intCoerce, "New duration for that Farm Type")]
      .t_set_farm_type_duration
      "Sets the duration of a given farm type"
  |>.addCmd "set-farm-type-returns"
      [("farm-type", strCoerce, "Type of the farm you want to change the returns of"),
       ("new-returns", fractionCoerce, "The new returns")]
      .t_set_farm_type_returns
      "Sets the returns per day for a given farm type"
  |>.addCmd "farm-balance" [] .t_farm_balance
      "displays your farms"
  |>.addCmd "authorize"
      [("account", parse_account_id, "Account to authorize"),
       ("level", authLevelCoerce, "Authorization level")]
      .t_authorize
      "Authorize a command"
  |>.aliasCmd "authorize" "authorise"
  |>.addCmd "help" [] .t_help
      "List all commands"

/-- The final global registry: the source's last line rebuilds the dict
with its items sorted by command name. -/
def _commands : Commands :=
  { _commands_initial with entries := sortByKey _commands_initial.entries }

/-- Applies the coercion rules of `cmd.args.values()` pairwise to the
tokens, as `map(lambda arg, input: arg[0](input), ...)` does: the zip
stops at the shorter sequence and the first raised coercion error
propagates. -/
def coerceArgs : List (String × Coercer × String) → List String →
    Except Exn (List Value)
  | _, [] => .ok []
  | [], _ => .ok []
  | p :: ps, t :: ts =>
      match p.2.1 t with
      | .error e => .error e
      | .ok v =>
          match coerceArgs ps ts with
          | .error e => .error e
          | .ok vs => .ok (v :: vs)

/-- `_parse_command_args` from the source. -/
def _parse_command_args (cmd : Command) (message : String) :
    Except Exn (List Value × String) :=
  match pySplit message with
  | [] => .error (.indexError "list index out of range")
  | w :: toks =>
      if cmd.name ≠ w then
        .error (.valueError "Command message does not match command")
      else
        match coerceArgs cmd.args toks with
        | .error e => .error e
        | .ok args =>
            if args.length < cmd.args.length then
              .error (.valueError "Not enough arguments")
            else
              .ok (args,
                String.intercalate " " ((w :: toks).drop (1 + cmd.args.length)))

/-- The `except` suite of `run_command`: maps each caught exception kind
to its fixed reply (`command` supplies the usage text, `w` the first token
used by the `KeyError` arm); every other exception propagates uncaught. -/
def handleExcept (command : Command) (w : String) (s : Server) :
    Except Exn (Reply × Server) → Except Exn (Reply × Server)
  | .ok r => .ok r
  | .error (.valueError m) =>
      .ok (.text ("Error: " ++ m ++ "\n" ++ command.usage), s)
  | .error (.valueCommand m) =>
      .ok (.text ("Invalid argument: " ++ m ++ "\n\n" ++ command.usage), s)
  | .error (.accountCommand m) =>
      .ok (.text ("Invalid account: " ++ m), s)
  | .error (.unauthorizedCommand _) =>
      .ok (.text "Unauthorized command", s)
  | .error (.processCommand _) =>
      .ok (.text "Something went wrong. Please try again later", s)
  | .error (.keyError _) =>
      .ok (.text ("No such command: " ++ w), s)
  | .error e => .error e

/-- One pass of `run_command` given the re-entry point `rec` for nested
dispatches.  The `try/except` of the source is modelled by `handleExcept`
over the `Except` result of parsing and handler invocation; the `except`
arms that need the resolved command (for usage text) are only reachable
once the lookup has succeeded, exactly as in Python. -/
def run_command_body (rec : Rec) (cs : Commands) (author : Value)
    (message : String) (s : Server) : Except Exn (Reply × Server) :=
  match pySplit message with
  | [] => .error (.indexError "list index out of range")
  | w :: _ =>
      match cs.lookup w with
      | none => .ok (.text ("No such command: " ++ w), s)
      | some command =>
          handleExcept command w s
            (match _parse_command_args command message with
             | .error e => .error e
             | .ok (args, rest) => applyHandler command.func rec cs author args rest s)

/-- `run_command` from the source, with an explicit fuel parameter
modelling the Python call stack: fuel `0` stands for the interpreter's
`RecursionError` on unbounded proxy chains. -/
def run_command : Nat → Value → String → Server → Except Exn (Reply × Server)
  | 0, _, _, _ => .error .recursionError
  | fuel + 1, author, message, s =>
      run_command_body (fun a m srv => run_command fuel a m srv) _commands author message s

set_option maxRecDepth 100000

/-- Unfolding of `run_command` at positive fuel. -/
theorem run_command_succ (fuel : Nat) (author : Value) (message : String) (s : Server) :
    run_command (fuel + 1) author message s =
    run_command_body (fun a m srv => run_command fuel a m srv) _commands author message s := rfl

/-- `map(f, [], ts)` produces nothing: coercion over an empty parameter
list succeeds with no values, whatever tokens remain. -/
theorem coerceArgs_nil (ts : List String) : coerceArgs [] ts = .ok [] := by
  cases ts <;> rfl

/-- A successful coercion pass yields exactly one value per consumed
token: the zip stops at the shorter of parameters and tokens. -/
theorem coerceArgs_ok_length (ps : List (String × Coercer × String)) (ts : List String)
    (vs : List Value) (h : coerceArgs ps ts = .ok vs) :
    vs.length = min ps.length ts.length := by
  induction ps generalizing ts vs with
  | nil =>
      cases ts with
      | nil => simp [coerceArgs] at h; simp [← h]
      | cons t ts => simp [coerceArgs] at h; simp [← h]
  | cons p ps ih =>
      cases ts with
      | nil => simp [coerceArgs] at h; simp [← h]
      | cons t ts =>
          simp only [coerceArgs] at h
          cases hc : p.2.1 t with
          | error e => rw [hc] at h; exact absurd h (by simp)
          | ok v =>
              rw [hc] at h
              cases hr : coerceArgs ps ts with
              | error e => rw [hr] at h; exact absurd h (by simp)
              | ok vs2 =>
                  rw [hr] at h
                  injection h with h
                  subst h
                  have := ih ts vs2 hr
                  simp only [List.length_cons, this]
                  omega

/-- Reduction of one dispatch once the first token and its registry entry
are known. -/
theorem run_command_step (fuel : Nat) (author : Value) (message : String) (s : Server)
    (name : String) (ts : List String) (cmd : Command)
    (hsplit : pySplit message = name :: ts)
    (hlook : _commands.lookup name = some cmd) :
    run_command (fuel + 1) author message s =
      handleExcept cmd name s
        (match _parse_command_args cmd message with
         | .error e => .error e
         | .ok (args, rest) =>
             applyHandler cmd.func (fun a m srv => run_command fuel a m srv)
               _commands author args rest s) := by
  rw [run_command_succ]
  unfold run_command_body
  rw [hsplit]
  simp only [hlook]

/-- Exception kinds that `run_command`'s `except` clauses do not catch. -/
def uncaughtKind : Exn → Bool
  | .indexError _ => true
  | .typeError _ => true
  | .zeroDivisionError _ => true
  | .attributeError _ => true
  | .recursionError => true
  | _ => false

/-- `handleExcept` only lets uncaught exception kinds escape. -/
theorem handleExcept_error (c : Command) (w : String) (s0 : Server)
    (r : Except Exn (Reply × Server)) (e : Exn)
    (h : handleExcept c w s0 r = .error e) : uncaughtKind e = true := by
  cases r with
  | ok v => simp [handleExcept] at h
  | error e2 => cases e2 <;> simp [handleExcept] at h <;> subst h <;> rfl

/-- `run_command` never raises a caught kind: every escaping exception is
one the `except` clauses do not match (this mirrors the Python dispatcher
swallowing the caught kinds internally). -/
theorem run_command_uncaught (fuel : Nat) (a : Value) (m : String) (s : Server)
    (e : Exn) (h : run_command fuel a m s = .error e) : uncaughtKind e = true := by
  cases fuel with
  | zero =>
      simp [run_command] at h
      simp [← h, uncaughtKind]
  | succ fuel =>
      rw [run_command_succ] at h
      unfold run_command_body at h
      split at h
      · injection h with h
        subst h
        rfl
      · split at h
        · simp at h
        · exact handleExcept_error _ _ _ _ _ h

/-- The except suite is the identity on results that are `ok` or carry an
uncaught kind. -/
theorem handleExcept_of_uncaught (c : Command) (w : String) (s0 : Server)
    (r : Except Exn (Reply × Server))
    (h : ∀ e, r = .error e → uncaughtKind e = true) :
    handleExcept c w s0 r = r := by
  cases r with
  | ok v => rfl
  | error e =>
      have := h e rfl
      cases e <;> simp_all [handleExcept, uncaughtKind]

/-- `_parse_command_args` depends on the message only through its
whitespace tokenization. -/
theorem parse_command_args_congr (cmd : Command) (m1 m2 : String)
    (h : pySplit m2 = pySplit m1) :
    _parse_command_args cmd m2 = _parse_command_args cmd m1 := by
  unfold _parse_command_args
  rw [h]

/-- One dispatch pass depends on the message only through its
tokenization. -/
theorem run_command_body_congr (rec : Rec) (a : Value) (s : Server) (m1 m2 : String)
    (h : pySplit m2 = pySplit m1) :
    run_command_body rec _commands a m2 s = run_command_body rec _commands a m1 s := by
  have hp : ∀ cmd, _parse_command_args cmd m2 = _parse_command_args cmd m1 :=
    fun cmd => parse_command_args_congr cmd m1 m2 h
  unfold run_command_body
  simp only [h, hp]

/-- `run_command` depends on the message only through its tokenization. -/
theorem run_command_congr (fuel : Nat) (a : Value) (s : Server) (m1 m2 : String)
    (h : pySplit m2 = pySplit m1) :
    run_command fuel a m2 s = run_command fuel a m1 s := by
  cases fuel with
  | zero => rfl
  | succ fuel =>
      rw [run_command_succ, run_command_succ]
      exact run_command_body_congr _ a s m1 m2 h

/-- Inserting keeps exactly the old elements plus the new one. -/
theorem insertDesc_perm (a : Account) (l : List Account) :
    List.Perm (insertDesc a l) (a :: l) := by
  induction l with
  | nil => simp [insertDesc]
  | cons b bs ih =>
      unfold insertDesc
      by_cases h : b.balance ≤ a.balance
      · simp [h]
      · simp only [h, if_false]
        exact List.Perm.trans (List.Perm.cons b ih) (List.Perm.swap a b bs)

/-- The stable descending sort is a permutation of its input. -/
theorem pySortedDesc_perm (l : List Account) : List.Perm (pySortedDesc l) l := by
  induction l with
  | nil => rfl
  | cons a as ih =>
      exact List.Perm.trans (insertDesc_perm a (pySortedDesc as)) (List.Perm.cons a ih)

/-- Membership in an inserted list. -/
theorem mem_insertDesc (x a : Account) (l : List Account) :
    x ∈ insertDesc a l ↔ x = a ∨ x ∈ l := by
  constructor
  · intro hx
    have := (insertDesc_perm a l).mem_iff.mp hx
    simpa using this
  · intro hx
    apply (insertDesc_perm a l).mem_iff.mpr
    simpa using hx

/-- Inserting preserves descending order by balance. -/
theorem pairwise_insertDesc (a : Account) (l : List Account)
    (h : List.Pairwise (fun x y => y.balance ≤ x.balance) l) :
    List.Pairwise (fun x y => y.balance ≤ x.balance) (insertDesc a l) := by
  induction l with
  | nil => simp [insertDesc]
  | cons b bs ih =>
      rcases List.pairwise_cons.mp h with ⟨hb, hbs⟩
      unfold insertDesc
      by_cases hba : b.balance ≤ a.balance
      · rw [if_pos hba]
        refine List.pairwise_cons.mpr ⟨?_, h⟩
        intro x hx
        rcases List.mem_cons.mp hx with rfl | hxbs
        · exact hba
        · exact le_trans (hb x hxbs) hba
      · rw [if_neg hba]
        refine List.pairwise_cons.mpr ⟨?_, ih hbs⟩
        intro x hx
        rcases (mem_insertDesc x a bs).mp hx with rfl | hxbs
        · exact le_of_not_le hba
        · exact hb x hxbs

/-- The stable descending sort is sorted: each listed account's balance is
at least every later one's. -/
theorem pySortedDesc_pairwise (l : List Account) :
    List.Pairwise (fun x y => y.balance ≤ x.balance) (pySortedDesc l) := by
  induction l with
  | nil => simp [pySortedDesc]
  | cons a as ih => exact pairwise_insertDesc a (pySortedDesc as) ih

/-- Where an insertion lands among equal balances: before every element of
equal balance (elements skipped on the way in are strictly larger). -/
theorem filter_insertDesc (a : Account) (l : List Account) (q : Rat) :
    (insertDesc a l).filter (fun x => x.balance == q) =
      if a.balance = q then a :: l.filter (fun x => x.balance == q)
      else l.filter (fun x => x.balance == q) := by
  induction l with
  | nil =>
      by_cases h : a.balance = q <;> simp [insertDesc, h]
  | cons b bs ih =>
      unfold insertDesc
      by_cases hba : b.balance ≤ a.balance
      · rw [if_pos hba]
        by_cases ha : a.balance = q <;> simp [ha]
      · rw [if_neg hba]
        have hab : a.balance < b.balance := lt_of_not_le hba
        by_cases ha : a.balance = q
        · have hbq : ¬ b.balance = q := by
            intro hbq
            rw [ha, hbq] at hab
            exact lt_irrefl q hab
          simp [ha, hbq, List.filter_cons, ih]
        · by_cases hbq : b.balance = q <;>
            simp [ha, hbq, List.filter_cons, ih]

/-- Stability: for every balance value, the accounts having exactly that
balance appear in the sorted output in their original input order. -/
theorem pySortedDesc_filter (l : List Account) (q : Rat) :
    (pySortedDesc l).filter (fun x => x.balance == q) =
      l.filter (fun x => x.balance == q) := by
  induction l with
  | nil => rfl
  | cons a as ih =>
      show (insertDesc a (pySortedDesc as)).filter _ = _
      rw [filter_insertDesc]
      by_cases h : a.balance = q
      · simp [h, ih, List.filter_cons]
      · simp [h, ih, List.filter_cons]

/-- `enumerate` preserves length. -/
theorem pyEnumFrom_length {α : Type} (i : Nat) (l : List α) :
    (pyEnumFrom i l).length = l.length := by
  induction l generalizing i with
  | nil => rfl
  | cons a as ih => simp [pyEnumFrom, ih]

/-- At most `k - i` enumerated positions starting at `i` lie below `k`. -/
theorem pyEnumFrom_filter_lt_length {α : Type} (k : Int) (i : Nat) (l : List α) :
    ((pyEnumFrom i l).filter (fun p => decide ((p.1 : Int) < k))).length
      ≤ (k - i).toNat := by
  induction l generalizing i with
  | nil => simp [pyEnumFrom]
  | cons a as ih =>
      simp only [pyEnumFrom, List.filter_cons]
      by_cases h : (i : Int) < k
      · simp only [decide_eq_true h, if_true, List.length_cons]
        have := ih (i + 1)
        omega
      · simp only [decide_eq_false h, Bool.false_eq_true, if_false]
        have := ih (i + 1)
        omega

/-- The registry entry for `proxy`. -/
def proxyCmdSpec : Command :=
  ⟨"proxy",
   [("account", parse_account_id, "Account to proxy"),
    ("command", strCoerce, "Command to run")],
   .t_proxy, "Proxy another account"⟩

/-- The registry entry for `proxy-dsa`. -/
def dsaCmdSpec : Command :=
  ⟨"proxy-dsa",
   [("account", parse_account_id, "Account to proxy"),
    ("signature", strCoerce, "ECDSA signature of command to run"),
    ("command", strCoerce, "Command to run")],
   .t_proxy_dsa, "Proxy another account using ECDSA verification"⟩

/-- The registry entry for `leader-board`. -/
def lbCmdSpec : Command :=
  ⟨"leader-board",
   [("limit", leaderLimitCoerce,
     "the maximum number of accounts to display -1 for no limit")],
   .t_leader_board, "view a list of all public accounts sorted by balance"⟩

/-- The registry entry for `authorize`. -/
def authorizeCmdSpec : Command :=
  ⟨"authorize",
   [("account", parse_account_id, "Account to authorize"),
    ("level", authLevelCoerce, "Authorization level")],
   .t_authorize, "Authorize a command"⟩

/-- The registry entry for `admin-create-recurring-transfer` (note the
`Fraction`-typed source parameter and the reuse of the three-argument
handler `_create_recurring_transfer`). -/
def acrtCmdSpec : Command :=
  ⟨"admin-create-recurring-transfer",
   [("amount", fractionCoerce, "Amount to transfer"),
    ("source", fractionCoerce, "Source to transfer from"),
    ("destination", parse_account_id, "Beneficiary to transfer to"),
    ("tick_count", intCoerce, "Interval to transfer by, in ticks")],
   .t_create_recurring_transfer,
   "Create a transfer from someone else which reccurs according to an interval"⟩

/-- The registry entry for `name`. -/
def nameCmdSpec : Command :=
  ⟨"name", [], .t_name, "Produces your real or hypothetical account ID"⟩

/-- The registry entry for `transfer`. -/
def transferCmdSpec : Command :=
  ⟨"transfer",
   [("amount", fractionCoerce, "Amount to transfer"),
    ("destination", parse_account_id, "Beneficiary to transfer to")],
   .t_transfer,
   "Transfers an amount of money from your account to a beneficiary's"⟩

theorem lookup_proxy_eq : _commands.lookup "proxy" = some proxyCmdSpec := rfl

theorem lookup_proxy_dsa_eq : _commands.lookup "proxy-dsa" = some dsaCmdSpec := rfl

theorem lookup_leader_board_eq : _commands.lookup "leader-board" = some lbCmdSpec := rfl

theorem lookup_authorize_eq : _commands.lookup "authorize" = some authorizeCmdSpec := rfl

theorem lookup_acrt_eq :
    _commands.lookup "admin-create-recurring-transfer" = some acrtCmdSpec := rfl

/-- Parsing a `proxy` line: the two declared parameters consume two
tokens; everything after is joined into the rest string. -/
theorem parse_proxy (message : String) (acct cmdTok : String) (extra : List String)
    (av : Value)
    (hacct : parse_account_id acct = .ok av)
    (hsplit : pySplit message = "proxy" :: acct :: cmdTok :: extra) :
    _parse_command_args proxyCmdSpec message =
      .ok ([av, .str cmdTok], String.intercalate " " extra) := by
  unfold _parse_command_args
  rw [hsplit]
  simp only [proxyCmdSpec, coerceArgs, coerceArgs_nil, strCoerce, hacct,
    List.drop_succ_cons, List.drop_zero, ne_eq, List.length_cons]
  norm_num

/-- Parsing a `proxy-dsa` line. -/
theorem parse_proxy_dsa (message : String) (acct sig cmdTok : String)
    (extra : List String) (av : Value)
    (hacct : parse_account_id acct = .ok av)
    (hsplit : pySplit message = "proxy-dsa" :: acct :: sig :: cmdTok :: extra) :
    _parse_command_args dsaCmdSpec message =
      .ok ([av, .str sig, .str cmdTok], String.intercalate " " extra) := by
  unfold _parse_command_args
  rw [hsplit]
  simp only [dsaCmdSpec, coerceArgs, coerceArgs_nil, strCoerce, hacct,
    List.drop_succ_cons, List.drop_zero, ne_eq, List.length_cons]
  norm_num

/-- Parsing a two-token `leader-board` line. -/
theorem parse_leader_board (message tok : String) (v : Value)
    (hco : leaderLimitCoerce tok = .ok v)
    (hsplit : pySplit message = ["leader-board", tok]) :
    _parse_command_args lbCmdSpec message = .ok ([v], "") := by
  unfold _parse_command_args
  rw [hsplit]
  simp only [lbCmdSpec, coerceArgs, coerceArgs_nil, hco,
    List.drop_succ_cons, List.drop_zero, ne_eq, List.length_cons]
  norm_num
  rfl

/-- Parsing an `authorize` line whose level token is not a recognized
authorization-level name: the level rule's dict lookup raises `KeyError`
during coercion. -/
theorem parse_authorize_keyerror (message acct lvl : String) (extra : List String)
    (av : Value)
    (hacct : parse_account_id acct = .ok av)
    (hlvl : lookupAssoc authorizationTable (pyLower lvl) = none)
    (hsplit : pySplit message = "authorize" :: acct :: lvl :: extra) :
    _parse_command_args authorizeCmdSpec message =
      .error (.keyError ("'" ++ pyLower lvl ++ "'")) := by
  unfold _parse_command_args
  rw [hsplit]
  simp only [authorizeCmdSpec, coerceArgs, hacct, authLevelCoerce, hlvl, ne_eq]
  norm_num

/-- Parsing an `admin-create-recurring-transfer` line whose four declared
parameter tokens all coerce. -/
theorem parse_acrt (message t1 t2 t3 t4 : String) (extra : List String)
    (v1 v2 v3 v4 : Value)
    (h1 : fractionCoerce t1 = .ok v1) (h2 : fractionCoerce t2 = .ok v2)
    (h3 : parse_account_id t3 = .ok v3) (h4 : intCoerce t4 = .ok v4)
    (hsplit : pySplit message =
      "admin-create-recurring-transfer" :: t1 :: t2 :: t3 :: t4 :: extra) :
    _parse_command_args acrtCmdSpec message =
      .ok ([v1, v2, v3, v4], String.intercalate " " extra) := by
  unfold _parse_command_args
  rw [hsplit]
  simp only [acrtCmdSpec, coerceArgs, coerceArgs_nil, h1, h2, h3, h4,
    List.drop_succ_cons, List.drop_zero, ne_eq, List.length_cons]
  norm_num

theorem applyHandler_proxy (rec : Rec) (cs : Commands) (author a c : Value)
    (rest : String) (s : Server) :
    applyHandler .t_proxy rec cs author [a, c] rest s =
      _proxy rec author a c rest s := rfl

theorem applyHandler_proxy_dsa (rec : Rec) (cs : Commands) (author a sg c : Value)
    (rest : String) (s : Server) :
    applyHandler .t_proxy_dsa rec cs author [a, sg, c] rest s =
      _proxy_dsa rec author a sg c rest s := rfl

theorem applyHandler_leader_board (rec : Rec) (cs : Commands) (author v : Value)
    (rest : String) (s : Server) :
    applyHandler .t_leader_board rec cs author [v] rest s =
      _leader_board author v rest s := rfl

/-- Calling the three-argument handler `_create_recurring_transfer` with
the four coerced arguments of `admin-create-recurring-transfer` raises
`TypeError`, as Python's positional binding does. -/
theorem applyHandler_crt_four (rec : Rec) (cs : Commands) (author a b c d : Value)
    (rest : String) (s : Server) :
    applyHandler .t_create_recurring_transfer rec cs author [a, b, c, d] rest s =
      .error (.typeError "takes a fixed number of positional arguments") := rfl

/-- A concrete service whose proxy predicate always denies, with empty
account lists and a no-op generic operation. -/
def falseProxyServer : Server :=
  ⟨[], fun _ _ _ _ => false, fun _ _ => .ok 42, fun _ => .ok [], fun _ => .ok [],
   fun _ => [], fun _ _ => .ok [], fun _ _ st => .ok (.noneV, st)⟩

/-- Like `falseProxyServer` but the proxy predicate always allows. -/
def trueProxyServer : Server :=
  { falseProxyServer with verify_proxy := fun _ _ _ _ => true }

/-- A service whose every generic operation raises
`UnauthorizedCommandException` with an internal detail message. -/
def unauthCallServer : Server :=
  { falseProxyServer with call := fun _ _ _ => .error (.unauthorizedCommand "secret detail") }

/-- A service whose every generic operation raises
`ProcessCommandException` with an internal detail message. -/
def processCallServer : Server :=
  { falseProxyServer with call := fun _ _ _ => .error (.processCommand "internal detail") }

/-- Claim C1: for every proxy invocation — both the unsigned `proxy` and
the signature-verified `proxy-dsa` command — in which `verify_proxy`
returns false, the reply is exactly the fixed string "Unauthorized proxy"
and the nested command line is never dispatched: the conclusion holds at
every remaining call-stack budget (in particular when the nested call
would have budget 0, where any re-entry of `run_command` would surface as
`RecursionError` instead of this reply), and the server is returned
unchanged, so no handler side effect attributable to the nested command
occurs. -/
theorem C1_proxy_unauthorized_fixed_reply
    (fuel : Nat) (author av : Value) (s : Server)
    (acct sig cmdTok : String) (extra : List String) (message messageD : String)
    (hacct : parse_account_id acct = .ok av) :
    (pySplit message = "proxy" :: acct :: cmdTok :: extra →
     s.verify_proxy author av none
       (cmdTok ++ " " ++ String.intercalate " " extra) = false →
     run_command (fuel + 1) author message s = .ok (.text "Unauthorized proxy", s))
    ∧ (pySplit messageD = "proxy-dsa" :: acct :: sig :: cmdTok :: extra →
       s.verify_proxy author av (some sig)
         (cmdTok ++ " " ++ String.intercalate " " extra) = false →
       run_command (fuel + 1) author messageD s =
         .ok (.text "Unauthorized proxy", s)) := by
  constructor
  · intro hsplit hver
    rw [run_command_step fuel author message s "proxy" (acct :: cmdTok :: extra)
          proxyCmdSpec hsplit lookup_proxy_eq,
        parse_proxy message acct cmdTok extra av hacct hsplit]
    simp only [proxyCmdSpec, applyHandler_proxy, _proxy, hver, Bool.false_eq_true,
      if_false, handleExcept]
  · intro hsplit hver
    rw [run_command_step fuel author messageD s "proxy-dsa"
          (acct :: sig :: cmdTok :: extra) dsaCmdSpec hsplit lookup_proxy_dsa_eq,
        parse_proxy_dsa messageD acct sig cmdTok extra av hacct hsplit]
    simp only [dsaCmdSpec, applyHandler_proxy_dsa, _proxy_dsa, hver,
      Bool.false_eq_true, if_false, handleExcept]

/-- Witness for C1 at a concrete denied proxy and proxy-dsa invocation,
run with zero remaining budget for any nested dispatch. -/
theorem C1_proxy_unauthorized_fixed_reply_witness :
    run_command 1 (.str "alice") "proxy acct1 balance" falseProxyServer =
      .ok (.text "Unauthorized proxy", falseProxyServer)
    ∧ run_command 1 (.str "alice") "proxy-dsa acct1 sig1 balance" falseProxyServer =
      .ok (.text "Unauthorized proxy", falseProxyServer) :=
  ⟨(C1_proxy_unauthorized_fixed_reply 0 (.str "alice") (.accountId "acct1")
      falseProxyServer "acct1" "sig1" "balance" [] "proxy acct1 balance"
      "proxy-dsa acct1 sig1 balance" rfl).1 rfl rfl,
   (C1_proxy_unauthorized_fixed_reply 0 (.str "alice") (.accountId "acct1")
      falseProxyServer "acct1" "sig1" "balance" [] "proxy acct1 balance"
      "proxy-dsa acct1 sig1 balance" rfl).2 rfl rfl⟩

/-- Claim C2: for every proxy invocation (unsigned or signature-verified)
in which `verify_proxy` returns true, the reply equals the result of a
direct dispatch of the nested command line — the `command` token joined
with the trailing rest — under the target account's identity; the fuel
drop by one models the nested Python stack frame. -/
theorem C2_proxy_delegates_to_nested_dispatch
    (fuel : Nat) (author av : Value) (s : Server)
    (acct sig cmdTok : String) (extra : List String) (message messageD : String)
    (hacct : parse_account_id acct = .ok av) :
    (pySplit message = "proxy" :: acct :: cmdTok :: extra →
     s.verify_proxy author av none
       (cmdTok ++ " " ++ String.intercalate " " extra) = true →
     run_command (fuel + 1) author message s =
       run_command fuel av (cmdTok ++ " " ++ String.intercalate " " extra) s)
    ∧ (pySplit messageD = "proxy-dsa" :: acct :: sig :: cmdTok :: extra →
       s.verify_proxy author av (some sig)
         (cmdTok ++ " " ++ String.intercalate " " extra) = true →
       run_command (fuel + 1) author messageD s =
         run_command fuel av (cmdTok ++ " " ++ String.intercalate " " extra) s) := by
  constructor
  · intro hsplit hver
    rw [run_command_step fuel author message s "proxy" (acct :: cmdTok :: extra)
          proxyCmdSpec hsplit lookup_proxy_eq,
        parse_proxy message acct cmdTok extra av hacct hsplit]
    simp only [proxyCmdSpec, applyHandler_proxy, _proxy, hver, if_true]
    exact handleExcept_of_uncaught _ _ _ _
      (fun e he => run_command_uncaught fuel av _ s e he)
  · intro hsplit hver
    rw [run_command_step fuel author messageD s "proxy-dsa"
          (acct :: sig :: cmdTok :: extra) dsaCmdSpec hsplit lookup_proxy_dsa_eq,
        parse_proxy_dsa messageD acct sig cmdTok extra av hacct hsplit]
    simp only [dsaCmdSpec, applyHandler_proxy_dsa, _proxy_dsa, hver, if_true]
    exact handleExcept_of_uncaught _ _ _ _
      (fun e he => run_command_uncaught fuel av _ s e he)

/-- Witness for C2 at a concrete allowed proxy and proxy-dsa invocation. -/
theorem C2_proxy_delegates_to_nested_dispatch_witness :
    run_command 2 (.str "alice") "proxy acct1 balance" trueProxyServer =
      run_command 1 (.accountId "acct1")
        ("balance" ++ " " ++ String.intercalate " " []) trueProxyServer
    ∧ run_command 2 (.str "alice") "proxy-dsa acct1 sig1 balance" trueProxyServer =
      run_command 1 (.accountId "acct1")
        ("balance" ++ " " ++ String.intercalate " " []) trueProxyServer :=
  ⟨(C2_proxy_delegates_to_nested_dispatch 1 (.str "alice") (.accountId "acct1")
      trueProxyServer "acct1" "sig1" "balance" [] "proxy acct1 balance"
      "proxy-dsa acct1 sig1 balance" rfl).1 rfl rfl,
   (C2_proxy_delegates_to_nested_dispatch 1 (.str "alice") (.accountId "acct1")
      trueProxyServer "acct1" "sig1" "balance" [] "proxy acct1 balance"
      "proxy-dsa acct1 sig1 balance" rfl).2 rfl rfl⟩

/-- Claim C3: whenever a dispatched line's handler raises
`UnauthorizedCommandException`, `run_command` returns exactly the fixed
string "Unauthorized command", and whenever it raises
`ProcessCommandException` it returns exactly "Something went wrong.
Please try again later" — in both cases for every underlying exception
message `m`, so no text from the exception reaches the reply, and no
usage text is appended. -/
theorem C3_detail_suppression_fixed_replies
    (fuel : Nat) (author : Value) (message : String) (s : Server)
    (name : String) (ts : List String) (cmd : Command) (args : List Value)
    (rest : String)
    (hsplit : pySplit message = name :: ts)
    (hlook : _commands.lookup name = some cmd)
    (hparse : _parse_command_args cmd message = .ok (args, rest)) :
    (∀ m : String,
      applyHandler cmd.func (fun a m2 srv => run_command fuel a m2 srv)
          _commands author args rest s = .error (.unauthorizedCommand m) →
      run_command (fuel + 1) author message s =
        .ok (.text "Unauthorized command", s))
    ∧ (∀ m : String,
      applyHandler cmd.func (fun a m2 srv => run_command fuel a m2 srv)
          _commands author args rest s = .error (.processCommand m) →
      run_command (fuel + 1) author message s =
        .ok (.text "Something went wrong. Please try again later", s)) := by
  constructor
  · intro m hrun
    rw [run_command_step fuel author message s name ts cmd hsplit hlook]
    rw [hparse]
    simp only [hrun, handleExcept]
  · intro m hrun
    rw [run_command_step fuel author message s name ts cmd hsplit hlook]
    rw [hparse]
    simp only [hrun, handleExcept]

/-- Witness for C3: the `force-tax` handler raising each suppressed kind
with a detail message that does not appear in the reply. -/
theorem C3_detail_suppression_fixed_replies_witness :
    run_command 1 (.str "alice") "force-tax" unauthCallServer =
      .ok (.text "Unauthorized command", unauthCallServer)
    ∧ run_command 1 (.str "alice") "force-tax" processCallServer =
      .ok (.text "Something went wrong. Please try again later", processCallServer) :=
  ⟨(C3_detail_suppression_fixed_replies 0 (.str "alice") "force-tax"
      unauthCallServer "force-tax" []
      (Command.mk "force-tax" [] .t_force_tax "Manually apply tax brakcets")
      [] "" rfl rfl rfl).1 "secret detail" rfl,
   (C3_detail_suppression_fixed_replies 0 (.str "alice") "force-tax"
      processCallServer "force-tax" []
      (Command.mk "force-tax" [] .t_force_tax "Manually apply tax brakcets")
      [] "" rfl rfl rfl).2 "internal detail" rfl⟩

/-- Counterexample to claim C4 as stated: on the empty input line,
`run_command` does not return the UnknownCommand reply — it raises an
uncaught `IndexError` (from `message.split()[0]` on an empty token
list). -/
theorem C4_empty_line_counterexample :
    run_command 1 (.str "user") "" falseProxyServer =
      .error (.indexError "list index out of range")
    ∧ run_command 1 (.str "user") "" falseProxyServer ≠
        .ok (.text "No such command: ", falseProxyServer) :=
  ⟨rfl, fun h => Except.noConfusion h⟩

/-- Claim C4 as amended: for every input line with no tokens (empty or
whitespace-only), `run_command` raises an uncaught `IndexError` rather
than returning any reply. -/
theorem C4_empty_line_uncaught_indexerror
    (fuel : Nat) (author : Value) (message : String) (s : Server)
    (h : pySplit message = []) :
    run_command (fuel + 1) author message s =
      .error (.indexError "list index out of range") := by
  rw [run_command_succ]
  unfold run_command_body
  rw [h]

/-- Witness for the amended C4 at the empty string and at a
whitespace-only string. -/
theorem C4_empty_line_uncaught_indexerror_witness :
    run_command 1 (.str "user") "" falseProxyServer =
      .error (.indexError "list index out of range")
    ∧ run_command 1 (.str "user") " \t " falseProxyServer =
      .error (.indexError "list index out of range") :=
  ⟨C4_empty_line_uncaught_indexerror 0 (.str "user") "" falseProxyServer rfl,
   C4_empty_line_uncaught_indexerror 0 (.str "user") " \t " falseProxyServer rfl⟩

/-- When one fewer token than declared parameters is supplied and each
supplied token coerces, parsing raises the arity `ValueError` — after the
coercions, as `list(map(...))` runs them first. -/
theorem parse_args_not_enough
    (cmd : Command) (message name : String) (ts : List String) (argsv : List Value)
    (hsplit : pySplit message = name :: ts)
    (hname : cmd.name = name)
    (hlen : ts.length + 1 = cmd.args.length)
    (hco : coerceArgs cmd.args ts = .ok argsv) :
    _parse_command_args cmd message = .error (.valueError "Not enough arguments") := by
  have hlt : argsv.length < cmd.args.length := by
    have := coerceArgs_ok_length cmd.args ts argsv hco
    omega
  unfold _parse_command_args
  rw [hsplit]
  simp only [hname, ne_eq, not_true_eq_false, if_false, hco, hlt, if_true]

/-- Counterexample to claim C5 as stated: `transfer abc` supplies exactly
one token for the two declared parameters, yet the reply is not the
ArityError reply — the coercion of the present token `abc` runs first and
its `ValueError` text is what reaches the user. -/
theorem C5_arity_counterexample :
    run_command 1 (.str "user") "transfer abc" falseProxyServer =
      .ok (.text ("Error: Invalid literal for Fraction: 'abc'" ++ "\n" ++
        Command.usage transferCmdSpec), falseProxyServer)
    ∧ ("Error: Invalid literal for Fraction: 'abc'" ++ "\n" ++
        Command.usage transferCmdSpec)
      ≠ ("Error: Not enough arguments" ++ "\n" ++ Command.usage transferCmdSpec) := by
  refine ⟨rfl, ?_⟩
  decide

/-- Claim C5 as amended: for every registered command with `n ≥ 1`
declared parameters and every line of the command name followed by
exactly `n - 1` tokens **each of which coerces successfully**, dispatch
yields the ArityError reply ("Error: Not enough arguments" followed by
the command's usage text); the reply is produced by the parser's arity
check, independent of the command's handler and of the service, so the
handler is never invoked.  (As stated the claim is false: coercion of the
present tokens is attempted before the arity check, so a failing present
token produces its coercion error instead — see the counterexample.) -/
theorem C5_arity_error_after_successful_coercion
    (fuel : Nat) (author : Value) (message : String) (s : Server)
    (name : String) (ts : List String) (cmd : Command) (argsv : List Value)
    (hsplit : pySplit message = name :: ts)
    (hlook : _commands.lookup name = some cmd)
    (hname : cmd.name = name)
    (hlen : ts.length + 1 = cmd.args.length)
    (hco : coerceArgs cmd.args ts = .ok argsv) :
    run_command (fuel + 1) author message s =
      .ok (.text ("Error: Not enough arguments" ++ "\n" ++ cmd.usage), s) := by
  rw [run_command_step fuel author message s name ts cmd hsplit hlook,
      parse_args_not_enough cmd message name ts argsv hsplit hname hlen hco]
  rfl

/-- Witness for the amended C5: `transfer 5` (one good token, two
declared parameters) yields the ArityError reply with usage. -/
theorem C5_arity_error_after_successful_coercion_witness :
    run_command 1 (.str "user") "transfer 5" falseProxyServer =
      .ok (.text ("Error: Not enough arguments" ++ "\n" ++
        Command.usage transferCmdSpec), falseProxyServer) :=
  C5_arity_error_after_successful_coercion 0 (.str "user") "transfer 5"
    falseProxyServer "transfer" ["5"] transferCmdSpec
    [.frac ((5 : Int) : Rat)] rfl rfl rfl rfl rfl

/-- Counterexample to claim C6 as stated: two lines differing only in the
whitespace between trailing tokens (`"name a \t b"` versus `"name a b"`)
yield the **same** rest string `"a b"` — the source rebuilds rest with
`" ".join(...)`, collapsing the original inter-token whitespace — and the
whole dispatch result coincides. -/
theorem C6_whitespace_counterexample :
    _parse_command_args nameCmdSpec "name a \t b" = .ok ([], "a b")
    ∧ _parse_command_args nameCmdSpec "name a b" = .ok ([], "a b")
    ∧ run_command 1 (.str "u") "name a \t b" falseProxyServer =
        run_command 1 (.str "u") "name a b" falseProxyServer :=
  ⟨rfl, rfl, rfl⟩

/-- Claim C6 as amended: the tokens beyond the declared parameter count
are preserved in order but joined with single spaces — the rest string is
exactly the space-intercalation of the trailing tokens — and consequently
any two input lines with the same tokenization (in particular, lines
differing only in inter-token whitespace) produce the same rest and the
same dispatch result. -/
theorem C6_rest_is_space_joined_trailing_tokens
    (cmd : Command) (message : String) (args : List Value) (rest : String)
    (hp : _parse_command_args cmd message = .ok (args, rest)) :
    rest = String.intercalate " " ((pySplit message).drop (1 + cmd.args.length))
    ∧ ∀ (fuel : Nat) (author : Value) (s : Server) (m2 : String),
        pySplit m2 = pySplit message →
        run_command fuel author m2 s = run_command fuel author message s := by
  constructor
  · cases hs : pySplit message with
    | nil =>
        unfold _parse_command_args at hp
        rw [hs] at hp
        exact absurd hp (by simp)
    | cons w toks =>
        unfold _parse_command_args at hp
        rw [hs] at hp
        simp only [ne_eq] at hp
        split at hp
        · exact absurd hp (by simp)
        · split at hp
          · exact absurd hp (by simp)
          · split at hp
            · exact absurd hp (by simp)
            · injection hp with hp
              injection hp with h1 h2
              exact h2.symm
  · intro fuel author s m2 h2
    exact run_command_congr fuel author s message m2 h2

/-- Witness for the amended C6 on the tab-separated trailing tokens of
`"name a \t b"`. -/
theorem C6_rest_is_space_joined_trailing_tokens_witness :
    "a b" = String.intercalate " "
      ((pySplit "name a \t b").drop (1 + nameCmdSpec.args.length))
    ∧ run_command 1 (.str "u") "name a b" falseProxyServer =
        run_command 1 (.str "u") "name a \t b" falseProxyServer := by
  have h := C6_rest_is_space_joined_trailing_tokens nameCmdSpec "name a \t b"
    [] "a b" rfl
  exact ⟨h.1, h.2 1 (.str "u") falseProxyServer "name a b" rfl⟩

/-- Claim C9: when the `authorize` level parameter's coercion raises
`KeyError` — which it does for any token whose lowercase form is not a
recognized authorization-level name — `run_command` catches the
`KeyError` at its single catch boundary and replies
"No such command: authorize", even though the command exists, rather than
producing a coercion-error reply with usage text. -/
theorem C9_authorize_keyerror_no_such_command
    (fuel : Nat) (author : Value) (s : Server) (acct lvl : String)
    (extra : List String) (message : String) (av : Value)
    (hsplit : pySplit message = "authorize" :: acct :: lvl :: extra)
    (hacct : parse_account_id acct = .ok av)
    (hlvl : lookupAssoc authorizationTable (pyLower lvl) = none) :
    run_command (fuel + 1) author message s =
      .ok (.text "No such command: authorize", s) := by
  rw [run_command_step fuel author message s "authorize" (acct :: lvl :: extra)
        authorizeCmdSpec hsplit lookup_authorize_eq,
      parse_authorize_keyerror message acct lvl extra av hacct hlvl hsplit]
  rfl

/-- Witness for C9 at the unrecognized level token `wizard`. -/
theorem C9_authorize_keyerror_no_such_command_witness :
    run_command 1 (.str "alice") "authorize acct1 wizard" falseProxyServer =
      .ok (.text "No such command: authorize", falseProxyServer) :=
  C9_authorize_keyerror_no_such_command 0 (.str "alice") falseProxyServer
    "acct1" "wizard" [] "authorize acct1 wizard" (.accountId "acct1") rfl rfl rfl

/-- Claim C10: for every `admin-create-recurring-transfer` invocation
whose four declared parameter tokens all coerce successfully, dispatch
raises an uncaught `TypeError` instead of returning any reply: the
command is registered with the three-argument handler
`_create_recurring_transfer`, Python's positional binding of the four
coerced arguments fails, and `TypeError` is not among the kinds
`run_command` catches. -/
theorem C10_admin_recurring_transfer_uncaught_typeerror
    (fuel : Nat) (author : Value) (s : Server) (t1 t2 t3 t4 : String)
    (extra : List String) (message : String) (v1 v2 v3 v4 : Value)
    (hsplit : pySplit message =
      "admin-create-recurring-transfer" :: t1 :: t2 :: t3 :: t4 :: extra)
    (h1 : fractionCoerce t1 = .ok v1) (h2 : fractionCoerce t2 = .ok v2)
    (h3 : parse_account_id t3 = .ok v3) (h4 : intCoerce t4 = .ok v4) :
    run_command (fuel + 1) author message s =
      .error (.typeError "takes a fixed number of positional arguments") := by
  rw [run_command_step fuel author message s "admin-create-recurring-transfer"
        (t1 :: t2 :: t3 :: t4 :: extra) acrtCmdSpec hsplit lookup_acrt_eq,
      parse_acrt message t1 t2 t3 t4 extra v1 v2 v3 v4 h1 h2 h3 h4 hsplit]
  rfl

/-- Witness for C10 at four well-formed tokens. -/
theorem C10_admin_recurring_transfer_uncaught_typeerror_witness :
    run_command 1 (.str "alice") "admin-create-recurring-transfer 5 3 acct1 7"
        falseProxyServer =
      .error (.typeError "takes a fixed number of positional arguments") :=
  C10_admin_recurring_transfer_uncaught_typeerror 0 (.str "alice") falseProxyServer
    "5" "3" "acct1" "7" [] "admin-create-recurring-transfer 5 3 acct1 7"
    (.frac ((5 : Int) : Rat)) (.frac ((3 : Int) : Rat)) (.accountId "acct1")
    (.int 7) rfl rfl rfl rfl rfl

/-- What claim C7 asserts of one original/alias pair: both names resolve,
to two distinct `_Command` objects (distinct store ids), whose argument
dicts and handler references are identical while the names differ; and
mutating the description of either object leaves the command found under
the other name unchanged. -/
def aliasFaithful (orig al : String) : Prop :=
  ∃ i j c c',
    lookupAssoc _commands.entries orig = some i ∧
    lookupAssoc _commands.entries al = some j ∧
    i ≠ j ∧
    _commands.store.get? i = some c ∧
    _commands.store.get? j = some c' ∧
    c.args = c'.args ∧
    c.func = c'.func ∧
    c.name = orig ∧
    c'.name = al ∧
    orig ≠ al ∧
    (∀ d : String,
      (Commands.setDescription _commands j d).lookup orig = some c ∧
      (Commands.setDescription _commands i d).lookup al = some c')

/-- Claim C7: every command aliased by the source — `leader-board`/`lb`,
`balance`/`bal`, `full-balance`/`full-bal`, `list`/`ls`,
`gun-balance`/`gun-bal`, `vest-balance`/`vest-bal`,
`authorize`/`authorise` — resolves under both names to specs with
identical parameters and handler, differing names, stored as independent
copies whose descriptions can be mutated without affecting each other. -/
theorem C7_alias_independent_copies :
    aliasFaithful "leader-board" "lb" ∧
    aliasFaithful "balance" "bal" ∧
    aliasFaithful "full-balance" "full-bal" ∧
    aliasFaithful "list" "ls" ∧
    aliasFaithful "gun-balance" "gun-bal" ∧
    aliasFaithful "vest-balance" "vest-bal" ∧
    aliasFaithful "authorize" "authorise" :=
  ⟨⟨5, 6, _, _, rfl, rfl, by decide, rfl, rfl, rfl, rfl, rfl, rfl, by decide,
    fun d => ⟨rfl, rfl⟩⟩,
   ⟨10, 11, _, _, rfl, rfl, by decide, rfl, rfl, rfl, rfl, rfl, rfl, by decide,
    fun d => ⟨rfl, rfl⟩⟩,
   ⟨12, 13, _, _, rfl, rfl, by decide, rfl, rfl, rfl, rfl, rfl, rfl, by decide,
    fun d => ⟨rfl, rfl⟩⟩,
   ⟨16, 17, _, _, rfl, rfl, by decide, rfl, rfl, rfl, rfl, rfl, rfl, by decide,
    fun d => ⟨rfl, rfl⟩⟩,
   ⟨39, 40, _, _, rfl, rfl, by decide, rfl, rfl, rfl, rfl, rfl, rfl, by decide,
    fun d => ⟨rfl, rfl⟩⟩,
   ⟨41, 42, _, _, rfl, rfl, by decide, rfl, rfl, rfl, rfl, rfl, rfl, by decide,
    fun d => ⟨rfl, rfl⟩⟩,
   ⟨48, 49, _, _, rfl, rfl, by decide, rfl, rfl, rfl, rfl, rfl, rfl, by decide,
    fun d => ⟨rfl, rfl⟩⟩⟩

/-- With no limit, the leader-board renders one row per account. -/
theorem lbLines_none_length (s : Server) (l : List Account) :
    (lbLines s l none).length = l.length := by
  unfold lbLines
  simp [pyEnumFrom_length]

/-- With limit `k`, the leader-board renders at most `k` rows. -/
theorem lbLines_some_length_le (s : Server) (l : List Account) (k : Int) :
    (lbLines s l (some k)).length ≤ k.toNat := by
  unfold lbLines
  rw [List.length_map]
  have h := pyEnumFrom_filter_lt_length k 0 l
  simpa using h

/-- Claim C8: dispatching `leader-board -1` lists every public account
with no truncation (the `-1` limit coerces to `None`, one row per
account), and dispatching `leader-board k` for a token coercing to a
non-negative integer `k` lists at most `k` accounts; in both cases the
rows enumerate `pySortedDesc` of the list the service returned — ordered
by descending balance (pairwise) and, for accounts of equal balance, in
the service's stable order (the filter at each balance value is
preserved verbatim). -/
theorem C8_leader_board_limit_and_order
    (fuel : Nat) (author : Value) (s : Server) (accs : List Account)
    (tokK : String) (k : Int) (msgNeg msgK : String)
    (hacc : s.list_public_accounts author = .ok accs)
    (hNeg : pySplit msgNeg = ["leader-board", "-1"])
    (hK : pySplit msgK = ["leader-board", tokK])
    (hcoK : leaderLimitCoerce tokK = .ok (.int k)) :
    (run_command (fuel + 1) author msgNeg s =
       .ok (.text (String.intercalate "\n"
         (lbLines s (pySortedDesc accs) none)), s)
     ∧ (lbLines s (pySortedDesc accs) none).length = accs.length)
    ∧ (run_command (fuel + 1) author msgK s =
         .ok (.text (String.intercalate "\n"
           (lbLines s (pySortedDesc accs) (some k))), s)
       ∧ (lbLines s (pySortedDesc accs) (some k)).length ≤ k.toNat)
    ∧ List.Perm (pySortedDesc accs) accs
    ∧ List.Pairwise (fun a b => b.balance ≤ a.balance) (pySortedDesc accs)
    ∧ (∀ q : Rat,
        (pySortedDesc accs).filter (fun a => a.balance == q) =
          accs.filter (fun a => a.balance == q)) := by
  refine ⟨⟨?_, ?_⟩, ⟨?_, ?_⟩, ?_, ?_, ?_⟩
  · rw [run_command_step fuel author msgNeg s "leader-board" ["-1"]
          lbCmdSpec hNeg lookup_leader_board_eq,
        parse_leader_board msgNeg "-1" .noneV rfl hNeg]
    simp only [lbCmdSpec, applyHandler_leader_board, _leader_board, hacc]
    rfl
  · rw [lbLines_none_length]
    exact (pySortedDesc_perm accs).length_eq
  · rw [run_command_step fuel author msgK s "leader-board" [tokK]
          lbCmdSpec hK lookup_leader_board_eq,
        parse_leader_board msgK tokK (.int k) hcoK hK]
    simp only [lbCmdSpec, applyHandler_leader_board, _leader_board, hacc]
    rfl
  · exact lbLines_some_length_le s (pySortedDesc accs) k
  · exact pySortedDesc_perm accs
  · exact pySortedDesc_pairwise accs
  · intro q
    exact pySortedDesc_filter accs q

/-- Witness for C8 on a service returning an empty public-account list,
with limits `-1` and `2`. -/
theorem C8_leader_board_limit_and_order_witness :
    run_command 1 (.str "alice") "leader-board -1" falseProxyServer =
      .ok (.text (String.intercalate "\n"
        (lbLines falseProxyServer (pySortedDesc []) none)), falseProxyServer)
    ∧ run_command 1 (.str "alice") "leader-board 2" falseProxyServer =
      .ok (.text (String.intercalate "\n"
        (lbLines falseProxyServer (pySortedDesc []) (some 2))), falseProxyServer)
    ∧ (pySortedDesc ([] : List Account)).filter (fun a => a.balance == 0) =
        ([] : List Account).filter (fun a => a.balance == 0) := by
  have h := C8_leader_board_limit_and_order 0 (.str "alice") falseProxyServer []
    "2" 2 "leader-board -1" "leader-board 2" rfl rfl rfl rfl
  exact ⟨h.1.1, h.2.1.1, h.2.2.2.2 0⟩
